import Mathlib

/-!
Verification of the core logic of the `whatsapp-cloud-api-py` library
(error categorization, retry advice, Graph API error construction,
snake/camel case conversion, webhook normalization and event dispatch)
via a shallow embedding of the Python source into Lean.

Python values that flow through untyped (`Any`) positions are modelled by
the inductive type `PyVal`; fallible Python code is modelled in `Except`.
Numeric strings parsed by `float()` are modelled with exact rational
arithmetic (CPython rounds to the nearest IEEE double; the difference is
confined to sub-ulp rounding and is noted where relevant).
-/

set_option autoImplicit false

namespace WaSpec

/-! ## Model of dynamically typed Python values -/

/-- A JSON-like model of the Python values handled by the library:
`None`, booleans, ints, floats (as exact rationals), strings, lists and
dicts (association lists of key/value pairs, preserving insertion order). -/
inductive PyVal where
  | vnone : PyVal
  | vbool : Bool → PyVal
  | vint : Int → PyVal
  | vfloat : Rat → PyVal
  | vstr : String → PyVal
  | vlist : List PyVal → PyVal
  | vdict : List (PyVal × PyVal) → PyVal

/-- Python truthiness (`bool(v)`): `None`, `False`, zero, empty strings and
empty containers are falsy; everything else is truthy. -/
def pyTruthy : PyVal → Bool
  | .vnone => false
  | .vbool b => b
  | .vint n => n != 0
  | .vfloat q => q != 0
  | .vstr s => s != ""
  | .vlist xs => !xs.isEmpty
  | .vdict xs => !xs.isEmpty

/-- The numeric value of a Python number (`bool` is an `int` in Python;
floats are modelled as exact rationals). -/
def numValue : PyVal → Option Rat
  | .vbool b => some (if b then 1 else 0)
  | .vint n => some (n : Rat)
  | .vfloat q => some q
  | _ => none

/-- Python `==` restricted to hashable (scalar) values, as used for
dict-key lookup: numbers compare by numeric value across `bool`, `int`
and `float`; container keys are unhashable and never reach a lookup. -/
def pyKeyEq (a b : PyVal) : Bool :=
  match numValue a, numValue b with
  | some x, some y => x == y
  | _, _ =>
    match a, b with
    | .vnone, .vnone => true
    | .vstr s, .vstr t => s == t
    | _, _ => false

/-- Whether a value may be used as a Python dict key (is hashable). -/
def pyHashable : PyVal → Bool
  | .vlist _ => false
  | .vdict _ => false
  | _ => true

/-- `d.get(key, default)` on a Python dict. -/
def dictGet (entries : List (PyVal × PyVal)) (key : PyVal) (dflt : PyVal) : PyVal :=
  match entries.find? (fun kv => pyKeyEq kv.1 key) with
  | some kv => kv.2
  | none => dflt

/-- `key in d` membership test on a Python dict. -/
def dictHasKey (entries : List (PyVal × PyVal)) (key : PyVal) : Bool :=
  (entries.find? (fun kv => pyKeyEq kv.1 key)).isSome

/-- String-keyed dict get, for payload sub-maps typed `dict[str, Any]`. -/
def sdictGet (entries : List (String × PyVal)) (key : String) (dflt : PyVal) : PyVal :=
  match entries.find? (fun kv => kv.1 == key) with
  | some kv => kv.2
  | none => dflt

/-- Exceptions that the embedded Python code can raise. -/
inductive PyExc where
  | typeError : PyExc
  | valueError : PyExc
  | overflowError : PyExc
  | attributeError : PyExc
  | validationError : PyExc
  deriving DecidableEq

/-- Decidable equality of `Except` results, for concrete evaluations. -/
instance exceptDecEq {ε α : Type} [DecidableEq ε] [DecidableEq α] :
    DecidableEq (Except ε α) := fun a b =>
  match a, b with
  | .ok x, .ok y =>
    if h : x = y then .isTrue (by rw [h])
    else .isFalse (by intro hh; injection hh; contradiction)
  | .error x, .error y =>
    if h : x = y then .isTrue (by rw [h])
    else .isFalse (by intro hh; injection hh; contradiction)
  | .ok _, .error _ => .isFalse (by intro hh; exact Except.noConfusion hh)
  | .error _, .ok _ => .isFalse (by intro hh; exact Except.noConfusion hh)

/-! ## `errors/categorize.py` -/

/-- The closed `ErrorCategory` enumeration (`errors/categorize.py`). -/
inductive ErrorCategory where
  | authorization | permission | parameter | throttling | template
  | media | phone_registration | integrity | business_eligibility
  | reengagement_window | waba_config | flow | synchronization
  | server | unknown
  deriving DecidableEq

/-- The static `_CODE_TO_CATEGORY` table from `errors/categorize.py`,
reproduced entry for entry. -/
def CODE_TO_CATEGORY : List (Int × ErrorCategory) :=
  [ (0, .authorization), (190, .authorization),
    (10, .permission), (200, .permission), (299, .permission),
    (4, .throttling), (80007, .throttling), (130429, .throttling),
    (131048, .throttling), (131056, .throttling),
    (33, .parameter), (100, .parameter), (130472, .parameter),
    (131008, .parameter), (131009, .parameter), (131021, .parameter),
    (131026, .parameter), (135000, .parameter),
    (131051, .media), (131052, .media), (131053, .media),
    (132000, .template), (132001, .template), (132005, .template),
    (132007, .template), (132012, .template), (132015, .template),
    (132016, .template),
    (132068, .flow), (132069, .flow),
    (133000, .phone_registration), (133004, .phone_registration),
    (133005, .phone_registration), (133006, .phone_registration),
    (133008, .phone_registration), (133009, .phone_registration),
    (133010, .phone_registration), (133015, .phone_registration),
    (133016, .phone_registration),
    (131047, .reengagement_window),
    (368, .integrity), (130497, .integrity), (131031, .integrity) ]

/-- `code in _CODE_TO_CATEGORY` / `_CODE_TO_CATEGORY[code]` as one lookup. -/
def lookupCode (code : Int) : Option ErrorCategory :=
  (CODE_TO_CATEGORY.find? (fun e => e.1 == code)).map (fun e => e.2)

/-- `categorize_error(code, http_status)` from `errors/categorize.py`,
at its annotated signature (`code: int | None`, `http_status: int | None`). -/
def categorize_error (code : Option Int) (http_status : Option Int) : ErrorCategory :=
  match code with
  | some c =>
    match lookupCode c with
    | some cat => cat
    | none =>
      match http_status with
      | some h => if h ≥ 500 then .server else .unknown
      | none => .unknown
  | none =>
    match http_status with
    | some h => if h ≥ 500 then .server else .unknown
    | none => .unknown

example : categorize_error (some 4) (some 500) = .throttling := by decide
example : categorize_error none (some 500) = .server := by decide
example : categorize_error none (some 400) = .unknown := by decide
example : categorize_error (some 99999) none = .unknown := by decide

/-- C1: a non-null code that is a key of the static code-to-category table
makes `categorize_error` return the tabulated category, taking precedence
over any `http_status` (including 5xx); with no tabulated code, a non-null
`http_status ≥ 500` gives `server`, and everything else gives `unknown`
(in particular `categorize(null,500)=server`, `categorize(null,400)=unknown`,
`categorize(null,null)=unknown`, `categorize(99999,null)=unknown`). -/
theorem claim_C1 :
    (∀ (code : Int) (cat : ErrorCategory) (hs : Option Int),
        lookupCode code = some cat → categorize_error (some code) hs = cat)
    ∧ (∀ (code : Int) (hs : Option Int), lookupCode code = none →
        categorize_error (some code) hs = categorize_error none hs)
    ∧ (∀ hs : Int, 500 ≤ hs → categorize_error none (some hs) = .server)
    ∧ (∀ hs : Int, hs < 500 → categorize_error none (some hs) = .unknown)
    ∧ categorize_error none none = .unknown
    ∧ categorize_error none (some 500) = .server
    ∧ categorize_error none (some 400) = .unknown
    ∧ categorize_error (some 99999) none = .unknown := by
  refine ⟨?_, ?_, ?_, ?_, by decide, by decide, by decide, by decide⟩
  · intro code cat hs h
    simp [categorize_error, h]
  · intro code hs h
    simp [categorize_error, h]
  · intro hs h
    simp [categorize_error, ge_iff_le, h]
  · intro hs h
    simp [categorize_error, ge_iff_le]
    omega

/-- Witness for C1: the table entry for code 4 (`throttling`) wins over
http status 500, and the fallback conjuncts hold at concrete statuses. -/
theorem claim_C1_witness :
    categorize_error (some 4) (some 500) = .throttling
    ∧ categorize_error (some 99999) (some 200) = categorize_error none (some 200)
    ∧ categorize_error none (some 502) = .server
    ∧ categorize_error none (some 499) = .unknown :=
  ⟨claim_C1.1 4 .throttling (some 500) (by decide),
   claim_C1.2.1 99999 (some 200) (by decide),
   claim_C1.2.2.1 502 (by decide),
   claim_C1.2.2.2.1 499 (by decide)⟩

/-! ## `client.py` — Transport header merge (`WhatsAppClient.request`) -/

/-- `WhatsAppClient._auth_headers`: the injected bearer-token header. -/
def auth_headers (access_token : String) : List (String × String) :=
  [("Authorization", "Bearer " ++ access_token)]

/-- First-match association lookup on a header map (Python dict access). -/
def headerLookup (hs : List (String × String)) (key : String) : Option String :=
  (hs.find? (fun kv => kv.1 == key)).map (fun kv => kv.2)

/-- Python `{**a, **b}` on string-keyed dicts: the result holds every key of
`a` (value overridden by `b` on collision) followed by the keys of `b` not
already in `a`, in order. -/
def dictMerge (a b : List (String × String)) : List (String × String) :=
  (a.map (fun kv =>
    (kv.1, match headerLookup b kv.1 with
           | some v => v
           | none => kv.2)))
  ++ b.filter (fun kv => (a.find? (fun kv2 => kv2.1 == kv.1)).isNone)

/-- The header map sent by `WhatsAppClient.request` (`client.py` line 90),
which merges the auth headers with the caller headers, caller side winning
on every key collision. -/
def request_merged_headers (access_token : String)
    (headers : Option (List (String × String))) : List (String × String) :=
  dictMerge (auth_headers access_token) (headers.getD [])

/-- C5 counterexample: a caller-supplied `Authorization` header silently
overrides the injected bearer token in `WhatsAppClient.request`, so the
claim that caller headers win only for non-Authorization keys is false. -/
theorem claim_C5_counterexample :
    headerLookup
      (request_merged_headers "tok" (some [("Authorization", "Bearer evil")]))
      "Authorization" = some "Bearer evil"
    ∧ "Bearer evil" ≠ "Bearer " ++ "tok" :=
  ⟨rfl, by decide⟩

/-- C5 (amended): the merged header map always contains an `Authorization`
key; its value is the injected `Bearer` token exactly when the caller did
not supply an `Authorization` key of its own, and caller headers take
precedence on every key collision, `Authorization` included. -/
theorem claim_C5 :
    ∀ (tok : String) (hs : List (String × String)),
      (headerLookup (request_merged_headers tok (some hs)) "Authorization").isSome
      ∧ (headerLookup hs "Authorization" = none →
          headerLookup (request_merged_headers tok (some hs)) "Authorization"
            = some ("Bearer " ++ tok))
      ∧ (∀ v, headerLookup hs "Authorization" = some v →
          headerLookup (request_merged_headers tok (some hs)) "Authorization"
            = some v)
      ∧ headerLookup (request_merged_headers tok none) "Authorization"
          = some ("Bearer " ++ tok) := by
  intro tok hs
  have hmerge : ∀ v : Option (List (String × String)),
      headerLookup (request_merged_headers tok v) "Authorization"
        = some (match headerLookup (v.getD []) "Authorization" with
                | some w => w
                | none => "Bearer " ++ tok) := by
    intro v
    simp [request_merged_headers, dictMerge, auth_headers, headerLookup,
      List.find?]
  refine ⟨?_, ?_, ?_, ?_⟩
  · rw [hmerge (some hs)]
    rfl
  · intro h
    rw [hmerge (some hs)]
    simp [h]
  · intro v h
    rw [hmerge (some hs)]
    simp [h]
  · rw [hmerge none]
    rfl

/-- Witness for C5 (amended): with no caller `Authorization` the injected
token is kept; a caller-supplied one wins. -/
theorem claim_C5_witness :
    headerLookup (request_merged_headers "tok" (some [("Accept", "a")]))
      "Authorization" = some ("Bearer " ++ "tok")
    ∧ headerLookup (request_merged_headers "tok" (some [("Authorization", "B")]))
      "Authorization" = some "B" :=
  ⟨(claim_C5 "tok" [("Accept", "a")]).2.1 rfl,
   (claim_C5 "tok" [("Authorization", "B")]).2.2.1 "B" rfl⟩

/-! ## `utils/case.py`

`to_camel` substitutes the regex `_([a-z0-9])` by the upper-cased captured
character; `to_snake` inserts `_` before every `[A-Z]` preceded by
`[a-z0-9]` (a lookbehind on the original string) and then lowercases the
result.  Both regex character classes are ASCII-only; `str.lower`/
`str.upper` are modelled on the ASCII range (the only range the captured
characters can come from; non-ASCII letters pass through unchanged in the
model, which leaves every claim below unaffected). -/

/-- The regex character class `[a-z0-9]` of `_CAMEL_RE`. -/
def isLowerDigit (c : Char) : Bool :=
  (97 ≤ c.toNat && c.toNat ≤ 122) || (48 ≤ c.toNat && c.toNat ≤ 57)

/-- The regex character class `[A-Z]` of `_SNAKE_RE`. -/
def isUpperAscii (c : Char) : Bool :=
  65 ≤ c.toNat && c.toNat ≤ 90

/-- `str.upper()` on one character, ASCII range. -/
def upperChar (c : Char) : Char :=
  if 97 ≤ c.toNat ∧ c.toNat ≤ 122 then Char.ofNat (c.toNat - 32) else c

/-- `str.lower()` on one character, ASCII range. -/
def lowerChar (c : Char) : Char :=
  if 65 ≤ c.toNat ∧ c.toNat ≤ 90 then Char.ofNat (c.toNat + 32) else c

/-- `_CAMEL_RE.sub(lambda m: m.group(1).upper(), s)` as a left-to-right,
non-overlapping scan over the characters of `s`: an underscore followed by
`[a-z0-9]` is replaced by the upper-cased character; any other character
(an underscore included) is copied and the scan resumes after it. -/
def camelChars : List Char → List Char
  | [] => []
  | '_' :: d :: rest =>
    if isLowerDigit d then upperChar d :: camelChars rest
    else '_' :: camelChars (d :: rest)
  | c :: rest => c :: camelChars rest

/-- `to_camel` from `utils/case.py` (the `lru_cache` is behaviorally
transparent). -/
def to_camel (s : String) : String := ⟨camelChars s.data⟩

/-- The scan of `_SNAKE_RE.sub(r"_\1", s)`: insert `_` before every
`[A-Z]` character whose predecessor in the original string is `[a-z0-9]`
(the first parameter carries that original predecessor). -/
def snakeAux : Char → List Char → List Char
  | _, [] => []
  | prev, c :: rest =>
    if isUpperAscii c && isLowerDigit prev then '_' :: c :: snakeAux c rest
    else c :: snakeAux c rest

/-- `_SNAKE_RE.sub(r"_\1", s)` over a character list (the first character
has no predecessor, so it can never match the lookbehind). -/
def snakeChars : List Char → List Char
  | [] => []
  | c :: rest => c :: snakeAux c rest

/-- `to_snake` from `utils/case.py`: regex insertion pass, then `.lower()`. -/
def to_snake (s : String) : String := ⟨(snakeChars s.data).map lowerChar⟩

example : to_camel "phone_number_id" = "phoneNumberId" := by decide
example : to_camel "_private" = "Private" := by decide
example : to_camel "a_b_c" = "aBC" := by decide
example : to_camel "error_code_2" = "errorCode2" := by decide
example : to_snake "phoneNumberId" = "phone_number_id" := by decide
example : to_snake "URL" = "url" := by decide
example : to_snake "errorCode2" = "error_code2" := by decide
example : to_camel "a__5" = "a_5" := by decide
example : to_camel "a_5" = "a5" := by decide

/-- Packing a small code point and reading it back. -/
theorem toNat_ofNat_of_lt {n : Nat} (h : n < 55296) : (Char.ofNat n).toNat = n := by
  have hv : n.isValidChar := Or.inl h
  rw [Char.ofNat, dif_pos hv]
  simp [Char.ofNatAux, Char.toNat, UInt32.toNat]

/-- Code point of `upperChar`. -/
theorem upperChar_toNat (c : Char) :
    (upperChar c).toNat =
      if 97 ≤ c.toNat ∧ c.toNat ≤ 122 then c.toNat - 32 else c.toNat := by
  unfold upperChar
  split_ifs with h
  · exact toNat_ofNat_of_lt (by omega)
  · rfl

/-- Code point of `lowerChar`. -/
theorem lowerChar_toNat (c : Char) :
    (lowerChar c).toNat =
      if 65 ≤ c.toNat ∧ c.toNat ≤ 90 then c.toNat + 32 else c.toNat := by
  unfold lowerChar
  split_ifs with h
  · exact toNat_ofNat_of_lt (by omega)
  · rfl

/-- A substitution step of `_CAMEL_RE` on a matching underscore. -/
theorem camel_us_low {d : Char} (h : isLowerDigit d = true) (rest : List Char) :
    camelChars ('_' :: d :: rest) = upperChar d :: camelChars rest := by
  simp [camelChars, h]

/-- A non-matching underscore is copied and the scan resumes after it. -/
theorem camel_us_not {d : Char} (h : isLowerDigit d = false) (rest : List Char) :
    camelChars ('_' :: d :: rest) = '_' :: camelChars (d :: rest) := by
  simp [camelChars, h]

/-- A non-underscore head is copied verbatim by the camel scan. -/
theorem camelChars_cons_ne {c : Char} (h : ¬ c = '_') (l : List Char) :
    camelChars (c :: l) = c :: camelChars l := by
  cases l with
  | nil => simp [camelChars]
  | cons d r =>
    rw [camelChars.eq_def]
    split
    · simp_all
    · rename_i heq
      simp at heq
      simp_all
    · rename_i c2 rest2 hno heq
      injection heq with h1 h2
      subst h1
      subst h2
      rfl

/-- ASCII digit test (`[0-9]`). -/
def isDigitA (c : Char) : Bool := 48 ≤ c.toNat && c.toNat ≤ 57

/-- Whether the character list contains an occurrence of two consecutive
underscores immediately followed by a digit — the exact pattern on which
`to_camel` fails to be idempotent. -/
def hasUUD : List Char → Bool
  | c1 :: c2 :: c3 :: rest =>
    (c1 = '_' && c2 = '_' && isDigitA c3) || hasUUD (c2 :: c3 :: rest)
  | _ => false

/-- `hasUUD` is monotone under dropping the head. -/
theorem hasUUD_tail {c : Char} {l : List Char} (h : hasUUD (c :: l) = false) :
    hasUUD l = false := by
  match l with
  | [] => rfl
  | [x] => rfl
  | x :: y :: r =>
    rw [hasUUD] at h
    simp at h
    exact h.2

/-- Upper-casing a `[a-z0-9]` character never yields an underscore. -/
theorem upperChar_ne_us {c : Char} (h : isLowerDigit c = true) :
    ¬ upperChar c = '_' := by
  intro hc
  have h2 := upperChar_toNat c
  rw [hc] at h2
  simp [isLowerDigit] at h
  have : ('_' : Char).toNat = 95 := by decide
  rw [this] at h2
  rcases h with h | h
  · rw [if_pos h] at h2
    omega
  · rw [if_neg (by omega)] at h2
    omega

/-- Upper-casing a lowercase letter leaves the class `[a-z0-9]`. -/
theorem isLowerDigit_upperChar_letter {c : Char} (h1 : 97 ≤ c.toNat)
    (h2 : c.toNat ≤ 122) : isLowerDigit (upperChar c) = false := by
  simp [isLowerDigit, upperChar_toNat, if_pos (And.intro h1 h2)]
  omega

/-- The underscore itself is not in `[a-z0-9]`. -/
theorem us_not_lower : isLowerDigit '_' = false := by decide

/-- After processing a chunk that begins with a non-matching character, the
output never begins with a `[a-z0-9]` character (given no `__<digit>`). -/
theorem camel_head_not_low {d : Char} {rest : List Char}
    (hd : isLowerDigit d = false)
    (hU : hasUUD ('_' :: d :: rest) = false) :
    ∀ x X, camelChars (d :: rest) = x :: X → isLowerDigit x = false := by
  intro x X hX
  by_cases hdu : d = '_'
  · subst hdu
    cases rest with
    | nil =>
      have hcc : camelChars ['_'] = ['_'] := rfl
      rw [hcc] at hX
      injection hX with h1 _
      rw [← h1]
      exact us_not_lower
    | cons e r3 =>
      have he : isDigitA e = false := by
        rw [hasUUD] at hU
        simp at hU
        simpa using hU.1
      by_cases hel : isLowerDigit e = true
      · have hlet : 97 ≤ e.toNat ∧ e.toNat ≤ 122 := by
          simp [isLowerDigit] at hel
          simp [isDigitA] at he
          rcases hel with h | h
          · exact h
          · omega
        rw [camel_us_low hel] at hX
        injection hX with h1 _
        rw [← h1]
        exact isLowerDigit_upperChar_letter hlet.1 hlet.2
      · rw [camel_us_not (by simpa using hel)] at hX
        injection hX with h1 _
        rw [← h1]
        exact us_not_lower
  · rw [camelChars_cons_ne hdu] at hX
    injection hX with h1 _
    rw [← h1]
    exact hd

/-- The camel substitution pass is idempotent on inputs containing no
`__<digit>` occurrence. -/
theorem camelChars_idem : ∀ (l : List Char), hasUUD l = false →
    camelChars (camelChars l) = camelChars l
  | [], _ => rfl
  | [c], _ => by
    by_cases hc : c = '_'
    · subst hc
      rfl
    · rw [camelChars_cons_ne hc, camelChars_cons_ne hc]
      rfl
  | c :: d :: rest, hU => by
    by_cases hc : c = '_'
    · subst hc
      by_cases hd : isLowerDigit d = true
      · rw [camel_us_low hd, camelChars_cons_ne (upperChar_ne_us hd),
          camelChars_idem rest (hasUUD_tail (hasUUD_tail hU))]
      · have hdf : isLowerDigit d = false := by simpa using hd
        rw [camel_us_not hdf]
        cases hX : camelChars (d :: rest) with
        | nil => rfl
        | cons x X2 =>
          have hxf := camel_head_not_low hdf hU x X2 hX
          rw [camel_us_not hxf, ← hX,
            camelChars_idem (d :: rest) (hasUUD_tail hU)]
    · rw [camelChars_cons_ne hc, camelChars_cons_ne hc,
        camelChars_idem (d :: rest) (hasUUD_tail hU)]

/-- Lowercasing leaves the class `[A-Z]`. -/
theorem isUpperAscii_lowerChar (c : Char) : isUpperAscii (lowerChar c) = false := by
  simp [isUpperAscii, lowerChar_toNat]
  split_ifs with h <;> omega

/-- `lowerChar` fixes characters outside `[A-Z]`. -/
theorem lowerChar_of_not_upper {c : Char} (h : isUpperAscii c = false) :
    lowerChar c = c := by
  unfold lowerChar
  rw [if_neg]
  simpa [isUpperAscii] using h

/-- The snake insertion scan is the identity on uppercase-free input. -/
theorem snakeAux_id (p : Char) (l : List Char)
    (h : ∀ c ∈ l, isUpperAscii c = false) : snakeAux p l = l := by
  induction l generalizing p with
  | nil => rfl
  | cons c rest ih =>
    have hc := h c (by simp)
    rw [snakeAux, if_neg (by simp [hc])]
    rw [ih c (fun d hd => h d (by simp [hd]))]

/-- The snake insertion pass is the identity on uppercase-free input. -/
theorem snakeChars_id (l : List Char) (h : ∀ c ∈ l, isUpperAscii c = false) :
    snakeChars l = l := by
  cases l with
  | nil => rfl
  | cons c rest =>
    rw [snakeChars, snakeAux_id c rest (fun d hd => h d (by simp [hd]))]

/-- Mapping a function that fixes every member is the identity. -/
theorem map_id_of {α : Type} (f : α → α) (l : List α)
    (h : ∀ c ∈ l, f c = c) : l.map f = l := by
  induction l with
  | nil => rfl
  | cons c rest ih =>
    rw [List.map_cons, h c (by simp), ih (fun d hd => h d (by simp [hd]))]

/-- `to_snake` is idempotent on every string. -/
theorem to_snake_idem (s : String) : to_snake (to_snake s) = to_snake s := by
  unfold to_snake
  have hlow : ∀ c ∈ (snakeChars s.data).map lowerChar, isUpperAscii c = false := by
    intro c hc
    rw [List.mem_map] at hc
    obtain ⟨d, _, rfl⟩ := hc
    exact isUpperAscii_lowerChar d
  have hdata : (String.mk ((snakeChars s.data).map lowerChar)).data
      = (snakeChars s.data).map lowerChar := rfl
  rw [hdata, snakeChars_id _ hlow,
    map_id_of lowerChar _ (fun c hc => lowerChar_of_not_upper (hlow c hc))]

/-- C10 counterexample: `to_camel` is not idempotent — on `"a__5"` the
first pass yields `"a_5"` (the second underscore is consumed by the match
on `_5`), and a second pass turns that into `"a5"`. -/
theorem claim_C10_counterexample :
    to_camel (to_camel "a__5") ≠ to_camel "a__5" := by decide

/-- C10 (amended): `to_snake` is idempotent on every string, and
`to_camel` is idempotent on every string that contains no occurrence of
two consecutive underscores immediately followed by a digit (the pattern
exhibited by the counterexample). -/
theorem claim_C10 :
    (∀ s : String, to_snake (to_snake s) = to_snake s)
    ∧ (∀ s : String, hasUUD s.data = false →
        to_camel (to_camel s) = to_camel s) := by
  refine ⟨to_snake_idem, ?_⟩
  intro s h
  unfold to_camel
  exact congrArg String.mk (camelChars_idem s.data h)

/-- Witness for C10 (amended): concrete idempotence at an already-snake
and an already-camel identifier. -/
theorem claim_C10_witness :
    to_snake (to_snake "phoneNumberId") = to_snake "phoneNumberId"
    ∧ to_camel (to_camel "phone_number_id") = to_camel "phone_number_id" :=
  ⟨claim_C10.1 "phoneNumberId",
   claim_C10.2 "phone_number_id" (by decide)⟩

/-! ### Deep conversions (`to_camel_deep` / `to_snake_deep`)

The two deep conversions of `utils/case.py` have the same recursion
shape and differ only in the per-key transform, so they are embedded as
one recursion `convDeep` applied to `to_camel` resp. `to_snake`.  A dict
is rebuilt by a comprehension, so a transformed key that collides with an
earlier one overwrites its value; applying the key transform (`re.sub`)
to a non-string key raises `TypeError`. -/

/-- Inserting into a Python dict: an existing equal key keeps its position
and gets the new value, a new key is appended. -/
def dictInsert (entries : List (PyVal × PyVal)) (k v : PyVal) :
    List (PyVal × PyVal) :=
  if dictHasKey entries k then
    entries.map (fun kv => if pyKeyEq kv.1 k then (kv.1, v) else kv)
  else entries ++ [(k, v)]

mutual

/-- The shared recursion of `to_camel_deep`/`to_snake_deep`: lists map
element-wise, dict values recurse and dict keys go through the per-key
transform `f` (raising `TypeError` on a non-string key, as `re.sub`
does), every other value passes through unchanged. -/
def convDeep (f : String → String) : PyVal → Except PyExc PyVal
  | .vlist xs => do
    let ys ← convDeepL f xs
    pure (.vlist ys)
  | .vdict xs => do
    let ys ← convDeepD f [] xs
    pure (.vdict ys)
  | v => pure v

/-- Element-wise conversion of a Python list. -/
def convDeepL (f : String → String) : List PyVal → Except PyExc (List PyVal)
  | [] => pure []
  | x :: xs => do
    let y ← convDeep f x
    let ys ← convDeepL f xs
    pure (y :: ys)

/-- The dict comprehension: keys transformed (key first, then value, as
CPython evaluates them), results accumulated with overwrite-on-collision. -/
def convDeepD (f : String → String) (acc : List (PyVal × PyVal)) :
    List (PyVal × PyVal) → Except PyExc (List (PyVal × PyVal))
  | [] => pure acc
  | (k, v) :: xs => do
    let k2 ← match k with
      | .vstr s => Except.ok (PyVal.vstr (f s))
      | _ => Except.error PyExc.typeError
    let v2 ← convDeep f v
    convDeepD f (dictInsert acc k2 v2) xs

end

/-- `to_camel_deep` from `utils/case.py`. -/
def to_camel_deep (v : PyVal) : Except PyExc PyVal := convDeep to_camel v

/-- `to_snake_deep` from `utils/case.py`. -/
def to_snake_deep (v : PyVal) : Except PyExc PyVal := convDeep to_snake v

/-- A value is a Python `str`. -/
def isVStr : PyVal → Bool
  | .vstr _ => true
  | _ => false

/-- Characterization of `isVStr`. -/
theorem isVStr_iff {k : PyVal} : isVStr k = true ↔ ∃ s, k = PyVal.vstr s := by
  cases k <;> simp [isVStr]

mutual

/-- Every mapping key at every depth is a string. -/
def allStrKeys : PyVal → Bool
  | .vlist xs => allStrKeysL xs
  | .vdict xs => allStrKeysD xs
  | _ => true

/-- `allStrKeys` over the elements of a list. -/
def allStrKeysL : List PyVal → Bool
  | [] => true
  | x :: xs => allStrKeys x && allStrKeysL xs

/-- `allStrKeys` over the entries of a dict. -/
def allStrKeysD : List (PyVal × PyVal) → Bool
  | [] => true
  | (k, v) :: xs => isVStr k && allStrKeys v && allStrKeysD xs

end

mutual

/-- `convDeep` succeeds on every value whose mapping keys are strings. -/
theorem convDeep_total (f : String → String) :
    ∀ (v : PyVal), allStrKeys v = true → ∃ w, convDeep f v = Except.ok w
  | .vnone, _ => ⟨.vnone, rfl⟩
  | .vbool b, _ => ⟨.vbool b, rfl⟩
  | .vint n, _ => ⟨.vint n, rfl⟩
  | .vfloat q, _ => ⟨.vfloat q, rfl⟩
  | .vstr s, _ => ⟨.vstr s, rfl⟩
  | .vlist xs, h => by
    obtain ⟨ys, hys⟩ := convDeepL_total f xs (by simpa [allStrKeys] using h)
    exact ⟨.vlist ys, by simp [convDeep, hys]⟩
  | .vdict xs, h => by
    obtain ⟨ys, hys⟩ := convDeepD_total f [] xs (by simpa [allStrKeys] using h)
    exact ⟨.vdict ys, by simp [convDeep, hys]⟩

/-- List case of `convDeep_total`. -/
theorem convDeepL_total (f : String → String) :
    ∀ (xs : List PyVal), allStrKeysL xs = true →
      ∃ ys, convDeepL f xs = Except.ok ys
  | [], _ => ⟨[], rfl⟩
  | x :: xs, h => by
    have hx : allStrKeys x = true := by
      rw [allStrKeysL] at h
      exact (Bool.and_eq_true_iff.mp h).1
    have hxs : allStrKeysL xs = true := by
      rw [allStrKeysL] at h
      exact (Bool.and_eq_true_iff.mp h).2
    obtain ⟨y, hy⟩ := convDeep_total f x hx
    obtain ⟨ys, hys⟩ := convDeepL_total f xs hxs
    exact ⟨y :: ys,
      by simp [convDeepL, hy, hys, Bind.bind, Except.bind, pure, Except.pure]⟩

/-- Dict case of `convDeep_total`. -/
theorem convDeepD_total (f : String → String) :
    ∀ (acc : List (PyVal × PyVal)) (xs : List (PyVal × PyVal)),
      allStrKeysD xs = true → ∃ ys, convDeepD f acc xs = Except.ok ys
  | acc, [], _ => ⟨acc, rfl⟩
  | acc, (k, v) :: xs, h => by
    rw [allStrKeysD] at h
    rw [Bool.and_eq_true_iff, Bool.and_eq_true_iff] at h
    obtain ⟨⟨hk, hv⟩, hxs⟩ := h
    obtain ⟨s, rfl⟩ := isVStr_iff.mp hk
    obtain ⟨w, hw⟩ := convDeep_total f v hv
    obtain ⟨ys, hys⟩ :=
      convDeepD_total f (dictInsert acc (.vstr (f s)) w) xs hxs
    exact ⟨ys,
      by simp [convDeepD, hw, hys, Bind.bind, Except.bind, pure, Except.pure]⟩

end

/-- Successful list conversion preserves the element count. -/
theorem convDeepL_length (f : String → String) :
    ∀ (xs : List PyVal) (ys : List PyVal),
      convDeepL f xs = Except.ok ys → ys.length = xs.length
  | [], ys, h => by
    rw [convDeepL] at h
    injection h with h
    rw [← h]
  | x :: xs, ys, h => by
    cases hx : convDeep f x with
    | error e =>
      rw [convDeepL] at h
      simp [hx, Bind.bind, Except.bind] at h
    | ok y =>
      cases hxs : convDeepL f xs with
      | error e =>
        rw [convDeepL] at h
        simp [hx, hxs, Bind.bind, Except.bind] at h
      | ok zs =>
        rw [convDeepL] at h
        simp [hx, hxs, Bind.bind, Except.bind, pure, Except.pure] at h
        rw [← h]
        simp [convDeepL_length f xs zs hxs]

/-- A successful `convDeep` on a list yields a list of the same length. -/
theorem convDeep_vlist_inv (f : String → String) (xs : List PyVal)
    (w : PyVal) (h : convDeep f (.vlist xs) = Except.ok w) :
    ∃ ys, w = PyVal.vlist ys ∧ ys.length = xs.length := by
  cases hL : convDeepL f xs with
  | error e =>
    rw [convDeep] at h
    simp [hL, Bind.bind, Except.bind] at h
  | ok ys =>
    rw [convDeep] at h
    simp [hL, Bind.bind, Except.bind, pure, Except.pure] at h
    exact ⟨ys, h.symm, convDeepL_length f xs ys hL⟩

/-- C8 counterexample: a mapping with a non-string key (here the int `1`)
makes both deep conversions raise `TypeError` (the key is fed to `re.sub`),
rather than being skipped or passed through. -/
theorem claim_C8_counterexample :
    to_camel_deep (.vdict [(.vint 1, .vint 0)]) = .error .typeError
    ∧ to_snake_deep (.vdict [(.vint 1, .vint 0)]) = .error .typeError :=
  ⟨rfl, rfl⟩

/-- C8 (amended): `to_camel_deep` and `to_snake_deep` are total (never
raise) on every value all of whose mapping keys, at every depth, are
strings — scalars pass through unchanged and lists keep their length —
but a non-string mapping key raises `TypeError` instead of being skipped. -/
theorem claim_C8 :
    (∀ v : PyVal, allStrKeys v = true →
      (∃ w, to_camel_deep v = Except.ok w) ∧ (∃ w, to_snake_deep v = Except.ok w))
    ∧ (∀ s, to_camel_deep (.vstr s) = .ok (.vstr s)
        ∧ to_snake_deep (.vstr s) = .ok (.vstr s))
    ∧ (∀ n : Int, to_camel_deep (.vint n) = .ok (.vint n)
        ∧ to_snake_deep (.vint n) = .ok (.vint n))
    ∧ (to_camel_deep .vnone = .ok .vnone ∧ to_snake_deep .vnone = .ok .vnone)
    ∧ (∀ xs w, to_camel_deep (.vlist xs) = Except.ok w →
        ∃ ys, w = PyVal.vlist ys ∧ ys.length = xs.length)
    ∧ (∀ xs w, to_snake_deep (.vlist xs) = Except.ok w →
        ∃ ys, w = PyVal.vlist ys ∧ ys.length = xs.length) := by
  refine ⟨?_, fun s => ⟨rfl, rfl⟩, fun n => ⟨rfl, rfl⟩, ⟨rfl, rfl⟩, ?_, ?_⟩
  · intro v h
    exact ⟨convDeep_total to_camel v h, convDeep_total to_snake v h⟩
  · exact fun xs w h => convDeep_vlist_inv to_camel xs w h
  · exact fun xs w h => convDeep_vlist_inv to_snake xs w h

/-- Witness for C8 (amended): both conversions succeed on a concrete
nested value with string keys, and the list inversion holds concretely. -/
theorem claim_C8_witness :
    (∃ w, to_camel_deep (.vdict [(.vstr "a_b", .vlist [.vnone])]) = Except.ok w)
    ∧ (∃ w, to_snake_deep (.vdict [(.vstr "aB", .vlist [.vnone])]) = Except.ok w)
    ∧ (∃ ys, (PyVal.vlist [.vstr "x"]) = PyVal.vlist ys
        ∧ ys.length = [PyVal.vstr "x"].length) :=
  ⟨(claim_C8.1 (.vdict [(.vstr "a_b", .vlist [.vnone])]) rfl).1,
   (claim_C8.1 (.vdict [(.vstr "aB", .vlist [.vnone])]) rfl).2,
   claim_C8.2.2.2.2.1 [.vstr "x"] (.vlist [.vstr "x"]) rfl⟩

/-! ## Model of CPython `float(str)` and `int(float)`

`errors/retry.py` evaluates `int(float(h) * 1000)` under
`contextlib.suppress(ValueError, TypeError)`.  `float(str)` strips
whitespace, accepts an optional sign followed by `inf`/`infinity`/`nan`
(case-insensitive) or a decimal literal with optional fraction, exponent
and underscores-between-digits, and raises `ValueError` otherwise.  The
numeric value is modelled exactly as a rational (CPython rounds to the
nearest IEEE double; the model's divergence is confined to sub-ulp
rounding, and the double range limit is accounted for at the `int()`
step, which is where it surfaces as an exception).  `int(x)` truncates a
finite value toward zero, raises `OverflowError` on an infinity and
`ValueError` on a nan.  Non-ASCII digits (which CPython would normalize)
are outside this model and treated as parse failures. -/

/-- A parsed Python float: finite (exact rational), signed infinity, nan. -/
inductive PyFloat where
  | finite : Rat → PyFloat
  | inf : Bool → PyFloat
  | nan : PyFloat
  deriving DecidableEq

/-- ASCII whitespace stripped by `str.strip()`. -/
def isSpaceChar (c : Char) : Bool :=
  c = ' ' || c = '\t' || c = '\n' || c = '\r' || c.toNat = 11 || c.toNat = 12


/-- Greedy scan of further digits, allowing a single underscore between
two digits (`1_000`), stopping before anything else. -/
def takeDigitsCore : List Char → (List Char × List Char)
  | [] => ([], [])
  | '_' :: d :: rest =>
    if isDigitA d then
      let p := takeDigitsCore rest
      (d :: p.1, p.2)
    else ([], '_' :: d :: rest)
  | c :: rest =>
    if isDigitA c then
      let p := takeDigitsCore rest
      (c :: p.1, p.2)
    else ([], c :: rest)

/-- A `digitpart` of the Python float grammar: it must start with a digit. -/
def parseDigitpart (l : List Char) : Option (List Char × List Char) :=
  match l with
  | c :: rest =>
    if isDigitA c then
      let p := takeDigitsCore rest
      some (c :: p.1, p.2)
    else none
  | [] => none

/-- Numeric value of a digit string. -/
def natOfDigits (ds : List Char) : Nat :=
  ds.foldl (fun n c => 10 * n + (c.toNat - 48)) 0

/-- Value of `<ints>.<fracs>` as an exact rational (written via `mkRat`,
which evaluates by kernel reduction). -/
def ratOfParts (ints fracs : List Char) : Rat :=
  mkRat (natOfDigits ints * 10 ^ fracs.length + natOfDigits fracs)
    (10 ^ fracs.length)

/-- Apply a decimal exponent. -/
def applyExp (q : Rat) (eneg : Bool) (e : Nat) : Rat :=
  if eneg then mkRat q.num (q.den * 10 ^ e) else mkRat (q.num * 10 ^ e) q.den

/-- Parse an optional sign, returning whether it was `-`. -/
def parseSign : List Char → (Bool × List Char)
  | '+' :: r => (false, r)
  | '-' :: r => (true, r)
  | r => (false, r)

/-- Parse the optional exponent and require the end of input. -/
def withExp (q : Rat) : List Char → Option Rat
  | [] => some q
  | e :: rest2 =>
    if e = 'e' ∨ e = 'E' then
      let p := parseSign rest2
      match parseDigitpart p.2 with
      | some (es, []) => some (applyExp q p.1 (natOfDigits es))
      | _ => none
    else none

/-- Fraction and exponent after the integer part. -/
def afterInt (ds : List Char) (rest : List Char) : Option Rat :=
  match rest with
  | '.' :: rest2 =>
    match parseDigitpart rest2 with
    | some (fs, rest3) => withExp (ratOfParts ds fs) rest3
    | none => withExp (ratOfParts ds []) rest2
  | _ => withExp (ratOfParts ds []) rest

/-- An unsigned numeric literal of the Python float grammar. -/
def parseNumber (l : List Char) : Option Rat :=
  match parseDigitpart l with
  | some (ds, rest) => afterInt ds rest
  | none =>
    match l with
    | '.' :: rest =>
      match parseDigitpart rest with
      | some (fs, rest2) => withExp (ratOfParts [] fs) rest2
      | none => none
    | _ => none

/-- CPython `float(str)`: `none` models a `ValueError`. -/
def pyFloatOfString (s : String) : Option PyFloat :=
  let l := ((s.data.dropWhile isSpaceChar).reverse.dropWhile isSpaceChar).reverse
  let p := parseSign l
  let low := p.2.map lowerChar
  if low = ['i', 'n', 'f'] || low = ['i', 'n', 'f', 'i', 'n', 'i', 't', 'y'] then
    some (.inf p.1)
  else if low = ['n', 'a', 'n'] then
    some .nan
  else
    (parseNumber p.2).map (fun q => .finite (if p.1 then -q else q))

example : pyFloatOfString "30" = some (.finite 30) := by decide
example : pyFloatOfString "1.5" = some (.finite (mkRat 3 2)) := by decide
example : pyFloatOfString "not-a-number" = none := by decide
example : pyFloatOfString " -2.5e1 " = some (.finite (-25)) := by decide
example : pyFloatOfString "1_0" = some (.finite 10) := by decide
example : pyFloatOfString "_5" = none := by decide
example : pyFloatOfString "5__5" = none := by decide
example : pyFloatOfString ".5" = some (.finite (mkRat 1 2)) := by decide
example : pyFloatOfString "5." = some (.finite 5) := by decide
example : pyFloatOfString "." = none := by decide
example : pyFloatOfString "1.e2" = some (.finite 100) := by decide
example : pyFloatOfString "Inf" = some (.inf false) := by decide
example : pyFloatOfString "-infinity" = some (.inf true) := by decide
example : pyFloatOfString "nan" = some .nan := by decide
example : pyFloatOfString "" = none := by decide

/-- Truncation toward zero (`int(x)` on a finite float). -/
def ratTrunc (q : Rat) : Int := if q < 0 then q.ceil else q.floor

/-- `2 ^ 1024`, the least magnitude beyond the IEEE double range, as a
numeral so that comparisons against it evaluate by kernel reduction. -/
def DOUBLE_SUP : Nat := 179769313486231590772930519078902473361797697894230657273430081157732675805500963132708477322407536021120113879871393357658789768814416622492847430639474124377767893424865485276302219601246094119453082952085005768838150682342462881473913110540827237163350510684586298239947245938479716304835356329624224137216

example : DOUBLE_SUP = 2 ^ 1024 := by norm_num [DOUBLE_SUP]

/-- `x * 1000` on a finite float, via `mkRat`. -/
def times1000 (q : Rat) : Rat := mkRat (q.num * 1000) q.den

/-- `int(float * 1000)`: truncates a finite product toward zero, raising
`OverflowError` beyond the IEEE double range (where CPython's double
arithmetic has already produced an infinity) or on an infinite value, and
`ValueError` on a nan. -/
def intOfTimes1000 : PyFloat → Except PyExc Int
  | .finite q =>
    let p := times1000 q
    if p ≤ -((DOUBLE_SUP : Nat) : Rat) ∨ ((DOUBLE_SUP : Nat) : Rat) ≤ p then
      .error .overflowError
    else
      .ok (ratTrunc p)
  | .inf _ => .error .overflowError
  | .nan => .error .valueError

/-! ## `errors/retry.py` -/

/-- The closed `RetryAction` enumeration (`errors/retry.py`). -/
inductive RetryAction where
  | retry | retry_after | fix_and_retry | do_not_retry | refresh_token
  deriving DecidableEq

/-- The frozen `RetryHint` dataclass. -/
structure RetryHint where
  action : RetryAction
  retry_after_ms : Option Int
  deriving DecidableEq

/-- The static `_CATEGORY_RETRY` table from `errors/retry.py`,
reproduced entry for entry. -/
def CATEGORY_RETRY : List (ErrorCategory × RetryAction) :=
  [ (.authorization, .refresh_token),
    (.permission, .fix_and_retry),
    (.parameter, .fix_and_retry),
    (.throttling, .retry_after),
    (.template, .fix_and_retry),
    (.media, .fix_and_retry),
    (.phone_registration, .fix_and_retry),
    (.integrity, .do_not_retry),
    (.business_eligibility, .do_not_retry),
    (.reengagement_window, .do_not_retry),
    (.waba_config, .fix_and_retry),
    (.flow, .fix_and_retry),
    (.synchronization, .retry),
    (.server, .retry),
    (.unknown, .retry) ]

/-- `_CATEGORY_RETRY.get(category, "retry")`. -/
def lookupAction (category : ErrorCategory) : RetryAction :=
  match (CATEGORY_RETRY.find? (fun e => e.1 = category)).map (fun e => e.2) with
  | some a => a
  | none => .retry

/-- The `contextlib.suppress(ValueError, TypeError)` block of
`get_retry_hint`: `retry_after_ms = int(float(header) * 1000)` with
`ValueError` (unparsable string, or `int(nan)`) and `TypeError` swallowed,
leaving `None`; any other exception — the `OverflowError` raised by
`int()` on an infinite value — propagates. -/
def parseRetryAfterMs : Option String → Except PyExc (Option Int)
  | none => .ok none
  | some h =>
    match pyFloatOfString h with
    | none => .ok none
    | some f =>
      match intOfTimes1000 f with
      | .ok n => .ok (some n)
      | .error .valueError => .ok none
      | .error .typeError => .ok none
      | .error e => .error e

/-- `get_retry_hint(category, retry_after_header)` from `errors/retry.py`. -/
def get_retry_hint (category : ErrorCategory)
    (retry_after_header : Option String) : Except PyExc RetryHint :=
  let action := lookupAction category
  match parseRetryAfterMs retry_after_header with
  | .error e => .error e
  | .ok ms =>
    let ms2 := if action = .retry_after ∧ ms = none then some 60000 else ms
    .ok ⟨action, ms2⟩

example : get_retry_hint .throttling none
    = .ok ⟨.retry_after, some 60000⟩ := by decide
example : get_retry_hint .throttling (some "30")
    = .ok ⟨.retry_after, some 30000⟩ := by decide
example : get_retry_hint .throttling (some "1.5")
    = .ok ⟨.retry_after, some 1500⟩ := by decide
example : get_retry_hint .throttling (some "not-a-number")
    = .ok ⟨.retry_after, some 60000⟩ := by decide
example : get_retry_hint .authorization (some "10")
    = .ok ⟨.refresh_token, some 10000⟩ := by decide
example : get_retry_hint .authorization none
    = .ok ⟨.refresh_token, none⟩ := by decide
example : get_retry_hint .server none = .ok ⟨.retry, none⟩ := by decide
example : get_retry_hint .throttling (some "nan")
    = .ok ⟨.retry_after, some 60000⟩ := by decide
example : get_retry_hint .throttling (some "inf")
    = .error .overflowError := by decide

/-- C2 counterexample: the header `"inf"` parses as a float (so the
`ValueError` suppression does not trigger) and `int(inf * 1000)` raises
`OverflowError`, which `suppress(ValueError, TypeError)` does not catch:
`get_retry_hint` raises instead of returning a hint. -/
theorem claim_C2_counterexample :
    get_retry_hint .throttling (some "inf") = .error .overflowError := by
  decide

/-- C2 (amended): for every category and header, `get_retry_hint` returns
the tabulated action; an absent or unparsable header (and a `nan`, whose
`int()` conversion raises the suppressed `ValueError`) is treated as
absent, in which case `retry_after_ms` defaults to 60000 exactly for the
`retry_after` action; a header whose float value converts to an integer
attaches that many milliseconds (seconds times 1000, truncated); but a
header parsing to an infinity raises `OverflowError` instead of
returning. -/
theorem claim_C2 :
    (∀ cat : ErrorCategory, get_retry_hint cat none
        = .ok ⟨lookupAction cat,
            if lookupAction cat = .retry_after then some 60000 else none⟩)
    ∧ (∀ (cat : ErrorCategory) (h : String), pyFloatOfString h = none →
        get_retry_hint cat (some h)
          = .ok ⟨lookupAction cat,
              if lookupAction cat = .retry_after then some 60000 else none⟩)
    ∧ (∀ (cat : ErrorCategory) (h : String), pyFloatOfString h = some .nan →
        get_retry_hint cat (some h)
          = .ok ⟨lookupAction cat,
              if lookupAction cat = .retry_after then some 60000 else none⟩)
    ∧ (∀ (cat : ErrorCategory) (h : String) (f : PyFloat) (n : Int),
        pyFloatOfString h = some f → intOfTimes1000 f = .ok n →
        get_retry_hint cat (some h) = .ok ⟨lookupAction cat, some n⟩)
    ∧ (∀ (cat : ErrorCategory) (h : String) (b : Bool),
        pyFloatOfString h = some (.inf b) →
        get_retry_hint cat (some h) = .error .overflowError)
    ∧ lookupAction .throttling = .retry_after
    ∧ get_retry_hint .throttling none = .ok ⟨.retry_after, some 60000⟩
    ∧ get_retry_hint .throttling (some "30") = .ok ⟨.retry_after, some 30000⟩
    ∧ get_retry_hint .throttling (some "1.5") = .ok ⟨.retry_after, some 1500⟩
    ∧ get_retry_hint .throttling (some "not-a-number")
        = .ok ⟨.retry_after, some 60000⟩ := by
  refine ⟨?_, ?_, ?_, ?_, ?_, by decide, by decide, by decide, by decide,
    by decide⟩
  · intro cat
    by_cases hc : lookupAction cat = .retry_after <;>
      simp [get_retry_hint, parseRetryAfterMs, hc]
  · intro cat h hp
    by_cases hc : lookupAction cat = .retry_after <;>
      simp [get_retry_hint, parseRetryAfterMs, hp, hc]
  · intro cat h hp
    by_cases hc : lookupAction cat = .retry_after <;>
      simp [get_retry_hint, parseRetryAfterMs, hp, intOfTimes1000, hc]
  · intro cat h f n hp hn
    simp [get_retry_hint, parseRetryAfterMs, hp, hn]
  · intro cat h b hp
    simp [get_retry_hint, parseRetryAfterMs, hp, intOfTimes1000]

/-- Witness for C2 (amended): the hypothesis-bearing conjuncts applied at
concrete headers. -/
theorem claim_C2_witness :
    get_retry_hint .server (some "abc")
      = .ok ⟨lookupAction .server,
          if lookupAction .server = .retry_after then some 60000 else none⟩
    ∧ get_retry_hint .authorization (some "10")
        = .ok ⟨lookupAction .authorization, some 10000⟩
    ∧ get_retry_hint .parameter (some "-inf") = .error .overflowError :=
  ⟨claim_C2.2.1 .server "abc" (by decide),
   claim_C2.2.2.2.1 .authorization "10" (.finite 10) 10000 (by decide)
     (by decide),
   claim_C2.2.2.2.2.1 .parameter "-inf" true (by decide)⟩

/-- C7 counterexample: a non-`retry_after` category still attaches a
parsed header value — `get_retry_hint("authorization", "10")` returns
`refresh_token` with `retry_after_ms = 10000`, not an absent one. -/
theorem claim_C7_counterexample :
    get_retry_hint .authorization (some "10")
      = .ok ⟨.refresh_token, some 10000⟩
    ∧ (RetryHint.mk .refresh_token (some 10000)).retry_after_ms ≠ none := by
  exact ⟨by decide, by decide⟩

/-- C7 (amended): for a category whose tabulated action is not
`retry_after`, every hint `get_retry_hint` returns carries the tabulated
action and has `retry_after_ms` equal to the header-parse result — the
parsed value when one parsed, absent otherwise — with no 60000 default
synthesized. -/
theorem claim_C7 :
    ∀ (cat : ErrorCategory) (h : Option String) (hint : RetryHint),
      lookupAction cat ≠ .retry_after →
      get_retry_hint cat h = .ok hint →
      hint.action = lookupAction cat
      ∧ parseRetryAfterMs h = .ok hint.retry_after_ms := by
  intro cat h hint hne hok
  unfold get_retry_hint at hok
  cases hp : parseRetryAfterMs h with
  | error e =>
    rw [hp] at hok
    simp at hok
  | ok ms =>
    rw [hp] at hok
    simp [hne] at hok
    rw [← hok]
    exact ⟨rfl, rfl⟩

/-- Witness for C7 (amended): applied to the `authorization` category with
header `"10"`. -/
theorem claim_C7_witness :
    (RetryHint.mk .refresh_token (some 10000)).action = lookupAction .authorization
    ∧ parseRetryAfterMs (some "10")
        = .ok (RetryHint.mk .refresh_token (some 10000)).retry_after_ms :=
  claim_C7 .authorization (some "10") ⟨.refresh_token, some 10000⟩
    (by decide) (by decide)

/-! ## `errors/graph_api_error.py` -/

/-- `categorize_error` as invoked by `GraphApiError.__init__` with the
unvalidated `code` taken from the decoded response body (any Python
value): `code in _CODE_TO_CATEGORY` compares keys by Python `==`, so
`True` or `4.0` match the int keys, a non-numeric hashable code simply
misses the table, and an unhashable code (list/dict) raises `TypeError`. -/
def categorize_error_py (code : PyVal) (http_status : Int) :
    Except PyExc ErrorCategory :=
  match code with
  | .vnone => .ok (categorize_error none (some http_status))
  | .vlist _ => .error .typeError
  | .vdict _ => .error .typeError
  | c =>
    match numValue c with
    | some q =>
      if q.den = 1 then .ok (categorize_error (some q.num) (some http_status))
      else .ok (categorize_error none (some http_status))
    | none => .ok (categorize_error none (some http_status))

/-- The `GraphApiError` exception object: the stored body-derived fields
are runtime Python values (a plain `Exception` subclass performs no
validation), plus the derived `category` and `retry`. -/
structure GraphApiError where
  message : PyVal
  http_status : Int
  code : PyVal
  type : PyVal
  details : PyVal
  error_subcode : PyVal
  fbtrace_id : PyVal
  error_data : PyVal
  raw : PyVal
  category : ErrorCategory
  retry : RetryHint

/-- `GraphApiError.__init__`: stores the fields and computes the derived
`category` (which can raise `TypeError` on an unhashable code) and
`retry` (which can raise `OverflowError` on an infinite header). -/
def GraphApiError.init (message : PyVal) (http_status : Int) (code : PyVal)
    (type_ : PyVal) (details : PyVal) (error_subcode : PyVal)
    (fbtrace_id : PyVal) (error_data : PyVal)
    (retry_after_header : Option String) (raw : PyVal) :
    Except PyExc GraphApiError := do
  let category ← categorize_error_py code http_status
  let retry ← get_retry_hint category retry_after_header
  pure ⟨message, http_status, code, type_, details, error_subcode,
    fbtrace_id, error_data, raw, category, retry⟩

/-- `GraphApiError.from_response(http_status, body, retry_after_header)`:
`err = body.get("error", body)` unwraps an `"error"` key when present
(falling back to the flat body); fields are extracted with the documented
defaults, where `details = err.get("error_user_msg") or
err.get("details")` is Python `or` — first-truthy, not first-non-null.
Calling `.get` on a non-dict body or `"error"` value raises
`AttributeError`. -/
def GraphApiError.from_response (http_status : Int) (body : PyVal)
    (retry_after_header : Option String) : Except PyExc GraphApiError := do
  let bodyEntries ← match body with
    | .vdict xs => Except.ok xs
    | _ => Except.error PyExc.attributeError
  let err := dictGet bodyEntries (.vstr "error") body
  let errEntries ← match err with
    | .vdict xs => Except.ok xs
    | _ => Except.error PyExc.attributeError
  let emsg := dictGet errEntries (.vstr "error_user_msg") .vnone
  let details :=
    if pyTruthy emsg then emsg else dictGet errEntries (.vstr "details") .vnone
  GraphApiError.init
    (dictGet errEntries (.vstr "message") (.vstr "Unknown Graph API error"))
    http_status
    (dictGet errEntries (.vstr "code") .vnone)
    (dictGet errEntries (.vstr "type") (.vstr ""))
    details
    (dictGet errEntries (.vstr "error_subcode") .vnone)
    (dictGet errEntries (.vstr "fbtrace_id") .vnone)
    (dictGet errEntries (.vstr "error_data") .vnone)
    retry_after_header
    body

example :
    (GraphApiError.from_response 401
      (.vdict [(.vstr "error",
        .vdict [(.vstr "message", .vstr "Invalid token"),
                (.vstr "code", .vint 190)])]) none).map
      (fun e => (e.category, e.retry.action))
    = .ok (.authorization, .refresh_token) := rfl

/-- C6 counterexample: a non-null but empty `error_user_msg` is falsy, so
Python `or` falls through to the body's `details` value — `details`
becomes `"d"`, not the empty string the claim requires. -/
theorem claim_C6_counterexample :
    (GraphApiError.from_response 400
      (.vdict [(.vstr "error_user_msg", .vstr ""),
               (.vstr "details", .vstr "d")]) none).map
      GraphApiError.details
    = .ok (.vstr "d")
    ∧ PyVal.vstr "d" ≠ PyVal.vstr "" := by
  exact ⟨rfl, by simp⟩

/-- C6 (amended): `from_response` sets `details` by first-truthy-wins:
whenever the (possibly `"error"`-wrapped) error dict has a truthy
`error_user_msg`, `details` is that value; when `error_user_msg` is falsy
(absent, null, or an empty string), `details` falls back to the dict's
`details` value. -/
theorem claim_C6 :
    ∀ (hs : Int) (outer xs : List (PyVal × PyVal)) (hdr : Option String)
      (e : GraphApiError),
      dictGet outer (.vstr "error") (.vdict outer) = .vdict xs →
      GraphApiError.from_response hs (.vdict outer) hdr = .ok e →
      (pyTruthy (dictGet xs (.vstr "error_user_msg") .vnone) = true →
        e.details = dictGet xs (.vstr "error_user_msg") .vnone)
      ∧ (pyTruthy (dictGet xs (.vstr "error_user_msg") .vnone) = false →
        e.details = dictGet xs (.vstr "details") .vnone) := by
  intro hs outer xs hdr e herr hok
  unfold GraphApiError.from_response at hok
  simp only [Bind.bind, Except.bind] at hok
  rw [herr] at hok
  unfold GraphApiError.init at hok
  cases hc : categorize_error_py (dictGet xs (.vstr "code") .vnone) hs with
  | error e2 =>
    simp [hc, Bind.bind, Except.bind] at hok
  | ok cat =>
    cases hr : get_retry_hint cat hdr with
    | error e2 =>
      simp [hc, hr, Bind.bind, Except.bind] at hok
    | ok r =>
      simp [hc, hr, Bind.bind, Except.bind, pure, Except.pure] at hok
      rw [← hok]
      constructor
      · intro ht
        simp [ht]
      · intro ht
        simp [ht]

/-- Witness for C6 (amended): a flat body with a truthy `error_user_msg`
concretely lands it in `details`. -/
theorem claim_C6_witness :
    (GraphApiError.mk (.vstr "Unknown Graph API error") 400 .vnone (.vstr "")
        (.vstr "u") .vnone .vnone .vnone
        (.vdict [(.vstr "error_user_msg", .vstr "u"),
                 (.vstr "details", .vstr "d")]) .unknown ⟨.retry, none⟩).details
      = dictGet [(.vstr "error_user_msg", .vstr "u"),
                 (.vstr "details", .vstr "d")] (.vstr "error_user_msg") .vnone :=
  (claim_C6 400
      [(.vstr "error_user_msg", .vstr "u"), (.vstr "details", .vstr "d")]
      [(.vstr "error_user_msg", .vstr "u"), (.vstr "details", .vstr "d")]
      none
      (GraphApiError.mk (.vstr "Unknown Graph API error") 400 .vnone
        (.vstr "") (.vstr "u") .vnone .vnone .vnone
        (.vdict [(.vstr "error_user_msg", .vstr "u"),
                 (.vstr "details", .vstr "d")]) .unknown ⟨.retry, none⟩)
      rfl rfl).1 rfl

/-! ## `types.py` — validated webhook models

`WebhookMessage` and `MessageStatusUpdate` are pydantic models: after
validation `id`/`type`/`timestamp` (resp. `id`/`status`/`timestamp`) are
strings, the per-type payload sub-maps are string-keyed dicts (or absent),
and unknown keys are kept (`extra="allow"`).  `NormalizedWebhook`'s
metadata fields are stored as the runtime values the normalizer computed. -/

/-- A string-keyed dict as a `PyVal`. -/
def pyOfSDict (d : List (String × PyVal)) : PyVal :=
  .vdict (d.map (fun kv => (.vstr kv.1, kv.2)))

/-- `WebhookMessageContext` (`types.py`). -/
structure WebhookMessageContext where
  id : Option String
  from_ : Option String
  referred_product : Option (List (String × PyVal))

/-- `WebhookMessage` (`types.py`): required string discriminators, one
optional payload sub-map per known type, extras preserved. -/
structure WebhookMessage where
  id : String
  type : String
  timestamp : String
  from_ : Option String
  to_ : Option String
  context : Option WebhookMessageContext
  text : Option (List (String × PyVal))
  image : Option (List (String × PyVal))
  video : Option (List (String × PyVal))
  audio : Option (List (String × PyVal))
  document : Option (List (String × PyVal))
  location : Option (List (String × PyVal))
  interactive : Option (List (String × PyVal))
  template : Option (List (String × PyVal))
  order : Option (List (String × PyVal))
  sticker : Option (List (String × PyVal))
  contacts : Option (List (List (String × PyVal)))
  reaction : Option (List (String × PyVal))
  button : Option (List (String × PyVal))
  referral : Option (List (String × PyVal))
  extra : List (String × PyVal)

/-- `MessageStatusUpdate` (`types.py`). -/
structure MessageStatusUpdate where
  id : String
  status : String
  timestamp : String
  recipient_id : Option String
  conversation : Option (List (String × PyVal))
  pricing : Option (List (String × PyVal))
  errors : Option (List (List (String × PyVal)))
  extra : List (String × PyVal)

/-- `NormalizedWebhook` (`types.py`); the metadata fields hold whatever
runtime value the normalizer extracted (validated to `str | None` on
construction). -/
structure NormalizedWebhook where
  object : PyVal
  phone_number_id : PyVal
  display_phone_number : PyVal
  contacts : List PyVal
  messages : List WebhookMessage
  statuses : List MessageStatusUpdate
  raw : List (PyVal × List PyVal)

/-! ## Model of `json.loads` (used by the `nfm_reply` branch)

A fuel-bounded recursive-descent JSON parser: `none` models a
`JSONDecodeError`.  `\u` escapes are decoded as single code points
(surrogate pairs are out of model scope); numbers with a fraction or
exponent decode to floats (exact rationals here), others to ints. -/

/-- JSON whitespace. -/
def isJsonWs (c : Char) : Bool :=
  c = ' ' || c = '\t' || c = '\n' || c = '\r'

/-- Hex digit value. -/
def hexVal (c : Char) : Option Nat :=
  if 48 ≤ c.toNat ∧ c.toNat ≤ 57 then some (c.toNat - 48)
  else if 97 ≤ c.toNat ∧ c.toNat ≤ 102 then some (c.toNat - 87)
  else if 65 ≤ c.toNat ∧ c.toNat ≤ 70 then some (c.toNat - 55)
  else none

/-- Scan a JSON string body up to the closing quote. -/
def jsonString : List Char → Option (String × List Char)
  | [] => none
  | '"' :: rest => some ("", rest)
  | '\\' :: 'u' :: a :: b :: c :: d :: rest => do
    let ha ← hexVal a
    let hb ← hexVal b
    let hc ← hexVal c
    let hd ← hexVal d
    let n := ((ha * 16 + hb) * 16 + hc) * 16 + hd
    let p ← jsonString rest
    pure (String.mk (Char.ofNat n :: p.1.data), p.2)
  | '\\' :: e :: rest => do
    let c ← match e with
      | '"' => some '"'
      | '\\' => some '\\'
      | '/' => some '/'
      | 'b' => some (Char.ofNat 8)
      | 'f' => some (Char.ofNat 12)
      | 'n' => some '\n'
      | 'r' => some '\r'
      | 't' => some '\t'
      | _ => none
    let p ← jsonString rest
    pure (String.mk (c :: p.1.data), p.2)
  | c :: rest => do
    let p ← jsonString rest
    pure (String.mk (c :: p.1.data), p.2)

/-- A JSON number: optional minus, digits, optional fraction/exponent. -/
def jsonNumber (l : List Char) : Option (PyVal × List Char) :=
  let sign : Bool × List Char := match l with
    | '-' :: r => (true, r)
    | r => (false, r)
  match parseDigitpart sign.2 with
  | none => none
  | some (ds, rest) =>
    let intPart : Int := if sign.1 then -(natOfDigits ds : Int) else natOfDigits ds
    match rest with
    | '.' :: r2 =>
      match parseDigitpart r2 with
      | none => none
      | some (fs, r3) =>
        let base := ratOfParts ds fs
        let q := if sign.1 then -base else base
        match r3 with
        | 'e' :: r4 => jsonExp q r4
        | 'E' :: r4 => jsonExp q r4
        | _ => some (.vfloat q, r3)
    | 'e' :: r4 => jsonExp (intPart : Rat) r4
    | 'E' :: r4 => jsonExp (intPart : Rat) r4
    | _ => some (.vint intPart, rest)
where
  /-- Exponent part of a JSON number. -/
  jsonExp (q : Rat) (l2 : List Char) : Option (PyVal × List Char) :=
    let p := parseSign l2
    match parseDigitpart p.2 with
    | none => none
    | some (es, rest) => some (.vfloat (applyExp q p.1 (natOfDigits es)), rest)

mutual

/-- Parse one JSON value (fuel-bounded). -/
def jsonValue : Nat → List Char → Option (PyVal × List Char)
  | 0, _ => none
  | fuel + 1, l =>
    match l.dropWhile isJsonWs with
    | 'n' :: 'u' :: 'l' :: 'l' :: rest => some (.vnone, rest)
    | 't' :: 'r' :: 'u' :: 'e' :: rest => some (.vbool true, rest)
    | 'f' :: 'a' :: 'l' :: 's' :: 'e' :: rest => some (.vbool false, rest)
    | '"' :: rest => (jsonString rest).map (fun p => (.vstr p.1, p.2))
    | '[' :: rest => jsonArray fuel (rest.dropWhile isJsonWs)
    | '{' :: rest => jsonObject fuel (rest.dropWhile isJsonWs)
    | l2 => jsonNumber l2

/-- Parse the inside of a JSON array, after `[`. -/
def jsonArray : Nat → List Char → Option (PyVal × List Char)
  | 0, _ => none
  | fuel + 1, l =>
    match l with
    | ']' :: rest => some (.vlist [], rest)
    | l2 => do
      let p ← jsonValue fuel l2
      jsonArrayTail fuel [p.1] p.2

/-- Remaining elements of a JSON array. -/
def jsonArrayTail : Nat → List PyVal → List Char → Option (PyVal × List Char)
  | 0, _, _ => none
  | fuel + 1, acc, l =>
    match l.dropWhile isJsonWs with
    | ']' :: rest => some (.vlist acc.reverse, rest)
    | ',' :: rest => do
      let p ← jsonValue fuel rest
      jsonArrayTail fuel (p.1 :: acc) p.2
    | _ => none

/-- Parse the inside of a JSON object, after `\x7b`. -/
def jsonObject : Nat → List Char → Option (PyVal × List Char)
  | 0, _ => none
  | fuel + 1, l =>
    match l with
    | '}' :: rest => some (.vdict [], rest)
    | l2 => jsonMembers fuel [] l2

/-- Members of a JSON object (starting at a key). -/
def jsonMembers : Nat → List (PyVal × PyVal) → List Char →
    Option (PyVal × List Char)
  | 0, _, _ => none
  | fuel + 1, acc, l =>
    match l.dropWhile isJsonWs with
    | '"' :: rest => do
      let k ← jsonString rest
      match k.2.dropWhile isJsonWs with
      | ':' :: rest2 => do
        let v ← jsonValue fuel rest2
        match v.2.dropWhile isJsonWs with
        | ',' :: rest3 => jsonMembers fuel ((PyVal.vstr k.1, v.1) :: acc) rest3
        | '}' :: rest3 => some (.vdict ((PyVal.vstr k.1, v.1) :: acc).reverse, rest3)
        | _ => none
      | _ => none
    | _ => none

end

/-- `json.loads` on a string: parse one value and require only
whitespace after it. -/
def json_loads (s : String) : Option PyVal :=
  match jsonValue (s.data.length * 3 + 3) s.data with
  | some (v, rest) => if (rest.dropWhile isJsonWs).isEmpty then some v else none
  | none => none

example : json_loads "\x7b\"a\": [1, 2.5, null]\x7d"
    = some (.vdict [(.vstr "a",
        .vlist [.vint 1, .vfloat (mkRat 5 2), .vnone])]) := rfl
example : json_loads "not json" = none := rfl
example : json_loads " true " = some (.vbool true) := rfl

/-! ## `events/events.py` and `events/dispatcher.py` -/

/-- The shared base fields of every message-derived event (`MessageEvent`
in `events/events.py`; plain dataclasses, so the runtime values are stored
unvalidated). -/
structure EventBase where
  phone_number_id : PyVal
  message_id : String
  timestamp : String
  from_number : String
  context : PyVal

/-- The shared base fields of every status event (`StatusEvent`). -/
structure StatusBase where
  phone_number_id : PyVal
  message_id : String
  timestamp : String
  recipient_id : String
  conversation : Option (List (String × PyVal))
  pricing : Option (List (String × PyVal))

/-- The closed family of event variants (`events/events.py`), one
constructor per dataclass; fields read from untyped payload maps are
`PyVal`. -/
inductive WhatsAppEvent where
  | textReceived (base : EventBase) (body : PyVal) (preview_url : Bool)
  | imageReceived (base : EventBase) (image_id mime_type sha256 caption : PyVal)
  | videoReceived (base : EventBase) (video_id mime_type sha256 caption : PyVal)
  | audioReceived (base : EventBase) (audio_id mime_type sha256 voice : PyVal)
  | documentReceived (base : EventBase)
      (document_id mime_type sha256 filename caption : PyVal)
  | stickerReceived (base : EventBase) (sticker_id mime_type animated : PyVal)
  | locationReceived (base : EventBase) (latitude longitude name address : PyVal)
  | contactsReceived (base : EventBase)
      (contacts : List (List (String × PyVal)))
  | reactionReceived (base : EventBase) (emoji reacted_message_id : PyVal)
  | buttonReply (base : EventBase) (button_id button_title : PyVal)
  | listReply (base : EventBase) (list_id list_title list_description : PyVal)
  | flowResponse (base : EventBase) (response_json flow_token : PyVal)
  | orderReceived (base : EventBase) (catalog_id product_items order_text : PyVal)
  | unknownMessageReceived (base : EventBase) (raw_type : String) (raw_data : PyVal)
  | messageSent (base : StatusBase)
  | messageDelivered (base : StatusBase)
  | messageRead (base : StatusBase)
  | messageFailed (base : StatusBase) (errors : List (List (String × PyVal)))

mutual

/-- Python `str()` of a value, as interpolated by the
`f"interactive:..."` tag; the float and container renderings approximate
CPython's text (no claim depends on their exact form). -/
def pyStr : PyVal → String
  | .vnone => "None"
  | .vbool b => if b then "True" else "False"
  | .vint n => toString n
  | .vfloat q => toString q
  | .vstr s => s
  | .vlist xs => "[" ++ pyStrList xs ++ "]"
  | .vdict xs => "\x7b" ++ pyStrDict xs ++ "\x7d"

/-- Comma-separated rendering of list elements. -/
def pyStrList : List PyVal → String
  | [] => ""
  | [x] => pyStr x
  | x :: xs => pyStr x ++ ", " ++ pyStrList xs

/-- Comma-separated rendering of dict entries. -/
def pyStrDict : List (PyVal × PyVal) → String
  | [] => ""
  | [(k, v)] => pyStr k ++ ": " ++ pyStr v
  | (k, v) :: xs => pyStr k ++ ": " ++ pyStr v ++ ", " ++ pyStrDict xs

end

/-- `model_dump(exclude_none=True)` of a context, by field order. -/
def contextDump (c : WebhookMessageContext) : List (String × PyVal) :=
  (match c.id with
   | some s => [("id", PyVal.vstr s)]
   | none => [])
  ++ (match c.from_ with
      | some s => [("from_", PyVal.vstr s)]
      | none => [])
  ++ (match c.referred_product with
      | some d => [("referred_product", pyOfSDict d)]
      | none => [])

/-- An optional scalar string field of a dump. -/
def dumpStrField (name : String) : Option String → List (String × PyVal)
  | some s => [(name, PyVal.vstr s)]
  | none => []

/-- An optional dict field of a dump. -/
def dumpDictField (name : String) :
    Option (List (String × PyVal)) → List (String × PyVal)
  | some d => [(name, pyOfSDict d)]
  | none => []

/-- `value == "literal"` on a Python value (equal only for that string). -/
def pyEqStr (v : PyVal) (s : String) : Bool :=
  match v with
  | .vstr t => t == s
  | _ => false

/-- Whether a value is Python `None`. -/
def isVNone : PyVal → Bool
  | .vnone => true
  | _ => false

/-- `msg.model_dump(exclude_none=True)`: declared fields in order, then
the preserved extra keys, with `None` values dropped. -/
def WebhookMessage.model_dump (m : WebhookMessage) : PyVal :=
  pyOfSDict (
    [("id", PyVal.vstr m.id), ("type", PyVal.vstr m.type),
     ("timestamp", PyVal.vstr m.timestamp)]
    ++ dumpStrField "from_" m.from_
    ++ dumpStrField "to" m.to_
    ++ (match m.context with
        | some c => [("context", pyOfSDict (contextDump c))]
        | none => [])
    ++ dumpDictField "text" m.text
    ++ dumpDictField "image" m.image
    ++ dumpDictField "video" m.video
    ++ dumpDictField "audio" m.audio
    ++ dumpDictField "document" m.document
    ++ dumpDictField "location" m.location
    ++ dumpDictField "interactive" m.interactive
    ++ dumpDictField "template" m.template
    ++ dumpDictField "order" m.order
    ++ dumpDictField "sticker" m.sticker
    ++ (match m.contacts with
        | some cs => [("contacts", PyVal.vlist (cs.map pyOfSDict))]
        | none => [])
    ++ dumpDictField "reaction" m.reaction
    ++ dumpDictField "button" m.button
    ++ dumpDictField "referral" m.referral
    ++ m.extra.filter (fun kv => !isVNone kv.2))

/-- `_base_kwargs(msg, phone_number_id)` from `events/dispatcher.py`:
`from_number = msg.from_ or ""`, and a context dump flattened with `None`
fields dropped (an empty dump collapses to `None` via `ctx or None`). -/
def _base_kwargs (msg : WebhookMessage) (phone_number_id : PyVal) : EventBase :=
  let ctx : PyVal :=
    match msg.context with
    | none => .vnone
    | some c =>
      let d := contextDump c
      if d.isEmpty then .vnone else pyOfSDict d
  ⟨phone_number_id, msg.id, msg.timestamp, msg.from_.getD "", ctx⟩

/-- `interactive.get(key, \x7b\x7d)` produces an arbitrary value; calling
`.get` on it (as the reply branches do) raises `AttributeError` unless it
is a mapping. -/
def asDict : PyVal → Except PyExc (List (PyVal × PyVal))
  | .vdict xs => .ok xs
  | _ => .error .attributeError

/-- `_map_interactive(msg, base)` from `events/dispatcher.py`. -/
def _map_interactive (msg : WebhookMessage) (base : EventBase) :
    Except PyExc WhatsAppEvent :=
  let interactive := msg.interactive.getD []
  let itype := sdictGet interactive "type" (.vstr "")
  if pyEqStr itype "button_reply" then do
    let reply ← asDict (sdictGet interactive "button_reply" (.vdict []))
    pure (.buttonReply base (dictGet reply (.vstr "id") (.vstr ""))
      (dictGet reply (.vstr "title") (.vstr "")))
  else if pyEqStr itype "list_reply" then do
    let reply ← asDict (sdictGet interactive "list_reply" (.vdict []))
    pure (.listReply base (dictGet reply (.vstr "id") (.vstr ""))
      (dictGet reply (.vstr "title") (.vstr ""))
      (dictGet reply (.vstr "description") .vnone))
  else if pyEqStr itype "nfm_reply" then do
    let reply ← asDict (sdictGet interactive "nfm_reply" (.vdict []))
    let rj := dictGet reply (.vstr "response_json") (.vdict [])
    let rj2 := match rj with
      | .vstr s =>
        match json_loads s with
        | some v => v
        | none => .vdict []
      | v => v
    pure (.flowResponse base rj2 (dictGet reply (.vstr "flow_token") .vnone))
  else
    pure (.unknownMessageReceived base ("interactive:" ++ pyStr itype)
      (pyOfSDict interactive))

/-- `_map_message(msg, phone_number_id)` from `events/dispatcher.py`:
dispatch on the `type` tag; every direct arm reads its payload sub-map
(`or \x7b\x7d` when absent) with per-field defaults; unknown types fall to
`UnknownMessageReceived`.  Only the interactive branch can raise (its
nested reply value is unvalidated). -/
def _map_message (msg : WebhookMessage) (phone_number_id : PyVal) :
    Except PyExc WhatsAppEvent :=
  let base := _base_kwargs msg phone_number_id
  match msg.type with
  | "text" =>
    let text := msg.text.getD []
    .ok (.textReceived base (sdictGet text "body" (.vstr "")) false)
  | "image" =>
    let img := msg.image.getD []
    .ok (.imageReceived base (sdictGet img "id" (.vstr ""))
      (sdictGet img "mime_type" (.vstr "")) (sdictGet img "sha256" (.vstr ""))
      (sdictGet img "caption" .vnone))
  | "video" =>
    let vid := msg.video.getD []
    .ok (.videoReceived base (sdictGet vid "id" (.vstr ""))
      (sdictGet vid "mime_type" (.vstr "")) (sdictGet vid "sha256" (.vstr ""))
      (sdictGet vid "caption" .vnone))
  | "audio" =>
    let aud := msg.audio.getD []
    .ok (.audioReceived base (sdictGet aud "id" (.vstr ""))
      (sdictGet aud "mime_type" (.vstr "")) (sdictGet aud "sha256" (.vstr ""))
      (sdictGet aud "voice" (.vbool false)))
  | "document" =>
    let doc := msg.document.getD []
    .ok (.documentReceived base (sdictGet doc "id" (.vstr ""))
      (sdictGet doc "mime_type" (.vstr "")) (sdictGet doc "sha256" (.vstr ""))
      (sdictGet doc "filename" .vnone) (sdictGet doc "caption" .vnone))
  | "sticker" =>
    let stk := msg.sticker.getD []
    .ok (.stickerReceived base (sdictGet stk "id" (.vstr ""))
      (sdictGet stk "mime_type" (.vstr ""))
      (sdictGet stk "animated" (.vbool false)))
  | "location" =>
    let loc := msg.location.getD []
    .ok (.locationReceived base (sdictGet loc "latitude" (.vfloat 0))
      (sdictGet loc "longitude" (.vfloat 0)) (sdictGet loc "name" .vnone)
      (sdictGet loc "address" .vnone))
  | "contacts" => .ok (.contactsReceived base (msg.contacts.getD []))
  | "reaction" =>
    let rxn := msg.reaction.getD []
    .ok (.reactionReceived base (sdictGet rxn "emoji" .vnone)
      (sdictGet rxn "message_id" (.vstr "")))
  | "interactive" => _map_interactive msg base
  | "order" =>
    let order := msg.order.getD []
    .ok (.orderReceived base (sdictGet order "catalog_id" (.vstr ""))
      (sdictGet order "product_items" (.vlist []))
      (sdictGet order "order_text" .vnone))
  | _ => .ok (.unknownMessageReceived base msg.type (msg.model_dump))

/-- The base kwargs of the inline status dispatch of `dispatch_webhook`
(`recipient_id = status.recipient_id or ""`). -/
def statusBaseOf (pid : PyVal) (st : MessageStatusUpdate) : StatusBase :=
  ⟨pid, st.id, st.timestamp, st.recipient_id.getD "", st.conversation,
   st.pricing⟩

/-- The inline `match status.status` of `dispatch_webhook`
(`events/dispatcher.py` lines 219-229): `sent`/`delivered`/`read`/`failed`
map to their events (`errors` defaulting to the empty list), everything
else falls back to `MessageSent`. -/
def _map_status (pid : PyVal) (st : MessageStatusUpdate) : WhatsAppEvent :=
  let base := statusBaseOf pid st
  match st.status with
  | "sent" => .messageSent base
  | "delivered" => .messageDelivered base
  | "read" => .messageRead base
  | "failed" => .messageFailed base (st.errors.getD [])
  | _ => .messageSent base

/-- Mapping the webhook's messages in order; an exception from
`_map_message` aborts the run (events already handed to the sink are a
side effect of the sink; the returned list is the full emission sequence
when no exception occurs). -/
def mapMessages (pid : PyVal) :
    List WebhookMessage → Except PyExc (List WhatsAppEvent)
  | [] => pure []
  | m :: ms => do
    let e ← _map_message m pid
    let es ← mapMessages pid ms
    pure (e :: es)

/-- `dispatch_webhook(webhook, emitter)`: every message event in array
order, then every status event in array order, emitted one at a time. -/
def dispatch_webhook (wh : NormalizedWebhook) :
    Except PyExc (List WhatsAppEvent) := do
  let msgEvents ← mapMessages wh.phone_number_id wh.messages
  pure (msgEvents ++ wh.statuses.map (_map_status wh.phone_number_id))

/-- The message types with a dedicated dispatch arm. -/
def knownMessageTypes : List String :=
  ["text", "image", "video", "audio", "document", "sticker", "location",
   "contacts", "reaction", "interactive", "order"]

/-- C3 counterexample: `_map_message` is not total — a validated
interactive message whose `button_reply` value is a non-mapping makes
`reply.get` raise `AttributeError`. -/
theorem claim_C3_counterexample :
    _map_message
      ⟨"m1", "interactive", "1", none, none, none, none, none, none, none,
       none, none,
       some [("type", .vstr "button_reply"), ("button_reply", .vint 5)],
       none, none, none, none, none, none, none, []⟩
      .vnone
    = .error .attributeError := rfl

/-- C3 (amended): `_map_message` is pure and returns exactly one event
for every message except that an interactive reply whose nested reply
value is not a mapping raises `AttributeError`: every non-interactive
message maps to exactly one event, an unrecognized type yields the
`unknown` variant carrying the message's dumped raw data, and a message
whose `type` tag has no matching payload sub-map produces the
all-default event for that type (empty strings, false booleans, zero
coordinates, empty lists; a missing interactive map produces the
`interactive:`-tagged unknown variant). -/
theorem claim_C3 :
    (∀ (msg : WebhookMessage) (pid : PyVal),
        msg.type ∉ knownMessageTypes →
        _map_message msg pid
          = .ok (.unknownMessageReceived (_base_kwargs msg pid) msg.type
              msg.model_dump))
    ∧ (∀ (msg : WebhookMessage) (pid : PyVal), msg.type ≠ "interactive" →
        ∃ ev, _map_message msg pid = .ok ev)
    ∧ (∀ (msg : WebhookMessage) (pid : PyVal),
        (msg.type = "text" → msg.text = none →
          _map_message msg pid
            = .ok (.textReceived (_base_kwargs msg pid) (.vstr "") false))
        ∧ (msg.type = "image" → msg.image = none →
          _map_message msg pid
            = .ok (.imageReceived (_base_kwargs msg pid) (.vstr "")
                (.vstr "") (.vstr "") .vnone))
        ∧ (msg.type = "video" → msg.video = none →
          _map_message msg pid
            = .ok (.videoReceived (_base_kwargs msg pid) (.vstr "")
                (.vstr "") (.vstr "") .vnone))
        ∧ (msg.type = "audio" → msg.audio = none →
          _map_message msg pid
            = .ok (.audioReceived (_base_kwargs msg pid) (.vstr "")
                (.vstr "") (.vstr "") (.vbool false)))
        ∧ (msg.type = "document" → msg.document = none →
          _map_message msg pid
            = .ok (.documentReceived (_base_kwargs msg pid) (.vstr "")
                (.vstr "") (.vstr "") .vnone .vnone))
        ∧ (msg.type = "sticker" → msg.sticker = none →
          _map_message msg pid
            = .ok (.stickerReceived (_base_kwargs msg pid) (.vstr "")
                (.vstr "") (.vbool false)))
        ∧ (msg.type = "location" → msg.location = none →
          _map_message msg pid
            = .ok (.locationReceived (_base_kwargs msg pid) (.vfloat 0)
                (.vfloat 0) .vnone .vnone))
        ∧ (msg.type = "contacts" → msg.contacts = none →
          _map_message msg pid
            = .ok (.contactsReceived (_base_kwargs msg pid) []))
        ∧ (msg.type = "reaction" → msg.reaction = none →
          _map_message msg pid
            = .ok (.reactionReceived (_base_kwargs msg pid) .vnone
                (.vstr "")))
        ∧ (msg.type = "order" → msg.order = none →
          _map_message msg pid
            = .ok (.orderReceived (_base_kwargs msg pid) (.vstr "")
                (.vlist []) .vnone))
        ∧ (msg.type = "interactive" → msg.interactive = none →
          _map_message msg pid
            = .ok (.unknownMessageReceived (_base_kwargs msg pid)
                "interactive:" (.vdict [])))) := by
  refine ⟨?_, ?_, ?_⟩
  · intro msg pid h
    simp only [_map_message]
    split <;> simp_all [knownMessageTypes]
  · intro msg pid h
    simp only [_map_message]
    split <;> first
      | exact ⟨_, rfl⟩
      | simp_all
  · intro msg pid
    refine ⟨?_, ?_, ?_, ?_, ?_, ?_, ?_, ?_, ?_, ?_, ?_⟩ <;>
      · intro h1 h2
        simp [_map_message, _map_interactive, h1, h2, sdictGet, pyEqStr,
          pyStr, pyOfSDict, pure, Except.pure]

/-- A concrete inbound text message used by witnesses. -/
def sampleMsg : WebhookMessage :=
  ⟨"m1", "text", "1", some "5551", none, none,
   some [("body", .vstr "hi")], none, none, none, none, none, none, none,
   none, none, none, none, none, none, []⟩

/-- A concrete message with an unrecognized type tag. -/
def sampleOddMsg : WebhookMessage :=
  ⟨"m2", "ephemeral", "2", none, none, none, none, none, none, none, none,
   none, none, none, none, none, none, none, none, none, []⟩

/-- A concrete text-tagged message with no text payload. -/
def sampleBareTextMsg : WebhookMessage :=
  ⟨"m3", "text", "3", none, none, none, none, none, none, none, none,
   none, none, none, none, none, none, none, none, none, []⟩

/-- Witness for C3 (amended): the unknown fallback, totality away from
`interactive`, and the missing-payload default, at concrete messages. -/
theorem claim_C3_witness :
    _map_message sampleOddMsg .vnone
      = .ok (.unknownMessageReceived (_base_kwargs sampleOddMsg .vnone)
          sampleOddMsg.type sampleOddMsg.model_dump)
    ∧ (∃ ev, _map_message sampleMsg (.vstr "123") = .ok ev)
    ∧ _map_message sampleBareTextMsg .vnone
        = .ok (.textReceived (_base_kwargs sampleBareTextMsg .vnone)
            (.vstr "") false) :=
  ⟨claim_C3.1 sampleOddMsg .vnone (by decide),
   claim_C3.2.1 sampleMsg (.vstr "123") (by decide),
   (claim_C3.2.2 sampleBareTextMsg .vnone).1 rfl rfl⟩

/-- C9: every normalized status update maps to exactly one status event
by its status string — `sent`, `delivered`, `read` and `failed` to their
events (with `errors` defaulting to the empty list), and every other
status value (e.g. `pending`) to `MessageSent` — and `dispatch_webhook`
emits exactly one such event per status, after the message events, in
array order. -/
theorem claim_C9 :
    (∀ (pid : PyVal) (st : MessageStatusUpdate),
      (st.status = "sent" → _map_status pid st = .messageSent (statusBaseOf pid st))
      ∧ (st.status = "delivered" →
          _map_status pid st = .messageDelivered (statusBaseOf pid st))
      ∧ (st.status = "read" →
          _map_status pid st = .messageRead (statusBaseOf pid st))
      ∧ (st.status = "failed" →
          _map_status pid st
            = .messageFailed (statusBaseOf pid st) (st.errors.getD []))
      ∧ (st.status ∉ (["sent", "delivered", "read", "failed"] : List String) →
          _map_status pid st = .messageSent (statusBaseOf pid st)))
    ∧ (∀ (wh : NormalizedWebhook) (msgEvents : List WhatsAppEvent),
        mapMessages wh.phone_number_id wh.messages = .ok msgEvents →
        dispatch_webhook wh
          = .ok (msgEvents
              ++ wh.statuses.map (_map_status wh.phone_number_id))) := by
  constructor
  · intro pid st
    refine ⟨?_, ?_, ?_, ?_, ?_⟩ <;>
      · intro h
        simp only [_map_status]
        split <;> simp_all
  · intro wh msgEvents h
    simp [dispatch_webhook, h, Bind.bind, Except.bind, pure, Except.pure]

/-- A status update with the undocumented value `pending`. -/
def samplePendingStatus : MessageStatusUpdate :=
  ⟨"s1", "pending", "9", some "5551", none, none, none, []⟩

/-- A failed status update with no errors list. -/
def sampleFailedStatus : MessageStatusUpdate :=
  ⟨"s2", "failed", "9", none, none, none, none, []⟩

/-- A concrete normalized webhook with one message and one status. -/
def sampleWebhook : NormalizedWebhook :=
  ⟨.vnone, .vstr "123", .vnone, [], [sampleMsg], [samplePendingStatus], []⟩

/-- Witness for C9: `pending` falls back to `MessageSent`, `failed`
defaults its errors to `[]`, and a concrete webhook dispatches its
message event followed by its status event. -/
theorem claim_C9_witness :
    _map_status .vnone samplePendingStatus
      = .messageSent (statusBaseOf .vnone samplePendingStatus)
    ∧ _map_status .vnone sampleFailedStatus
        = .messageFailed (statusBaseOf .vnone sampleFailedStatus) []
    ∧ dispatch_webhook sampleWebhook
        = .ok ([.textReceived (_base_kwargs sampleMsg (.vstr "123"))
              (.vstr "hi") false]
            ++ sampleWebhook.statuses.map
                (_map_status sampleWebhook.phone_number_id)) :=
  ⟨(claim_C9.1 .vnone samplePendingStatus).2.2.2.2 (by decide),
   (claim_C9.1 .vnone sampleFailedStatus).2.2.2.1 rfl,
   claim_C9.2 sampleWebhook
     [.textReceived (_base_kwargs sampleMsg (.vstr "123")) (.vstr "hi") false]
     rfl⟩

/-! ## Pydantic validation (`model_validate` of the webhook models)

Lax-mode validation as the models configure it: required string fields
must be strings, `str | None` fields accept a string or `None`,
`dict[str, Any]` fields must be string-keyed mappings, list-of-dict
fields must be lists of such mappings; `populate_by_name` accepts each
field under its camel alias or its name, and `extra="allow"` keeps the
remaining (string-keyed) entries. -/

/-- A required `str` field value. -/
def vReqStr : PyVal → Except PyExc String
  | .vstr s => .ok s
  | _ => .error .validationError

/-- A `str | None` field value. -/
def vOptStr : PyVal → Except PyExc (Option String)
  | .vnone => .ok none
  | .vstr s => .ok (some s)
  | _ => .error .validationError

/-- The entries of a string-keyed mapping (`dict[str, Any]`). -/
def vStrEntries : List (PyVal × PyVal) → Except PyExc (List (String × PyVal))
  | [] => .ok []
  | (.vstr k, v) :: xs => do
    let rest ← vStrEntries xs
    pure ((k, v) :: rest)
  | _ => .error .validationError

/-- A `dict[str, Any]` field value. -/
def vStrDict : PyVal → Except PyExc (List (String × PyVal))
  | .vdict xs => vStrEntries xs
  | _ => .error .validationError

/-- A `dict[str, Any] | None` field value. -/
def vOptStrDict : PyVal → Except PyExc (Option (List (String × PyVal)))
  | .vnone => .ok none
  | v => (vStrDict v).map some

/-- A `list[dict[str, Any]] | None` field value. -/
def vOptDictList : PyVal → Except PyExc (Option (List (List (String × PyVal))))
  | .vnone => .ok none
  | .vlist vs => (vs.mapM vStrDict).map some
  | _ => .error .validationError

/-- Look a field up under its accepted input names, first match wins. -/
def fieldGet (xs : List (String × PyVal)) : List String → Option PyVal
  | [] => none
  | n :: rest =>
    match xs.find? (fun kv => kv.1 == n) with
    | some kv => some kv.2
    | none => fieldGet xs rest

/-- An absent optional field validates to its default. -/
def vOptField {α : Type} (xs : List (String × PyVal)) (names : List String)
    (f : PyVal → Except PyExc (Option α)) : Except PyExc (Option α) :=
  match fieldGet xs names with
  | some v => f v
  | none => .ok none

/-- A required field must be present. -/
def vReqField (xs : List (String × PyVal)) (names : List String) :
    Except PyExc String :=
  match fieldGet xs names with
  | some v => vReqStr v
  | none => .error .validationError

/-- `WebhookMessageContext.model_validate`. -/
def WebhookMessageContext.model_validate (xs : List (String × PyVal)) :
    Except PyExc WebhookMessageContext := do
  let i ← vOptField xs ["id"] vOptStr
  let f ← vOptField xs ["from", "from_"] vOptStr
  let rp ← vOptField xs ["referredProduct", "referred_product"] vOptStrDict
  pure ⟨i, f, rp⟩

/-- The input names consumed by `WebhookMessage`'s declared fields. -/
def webhookMessageFieldNames : List String :=
  ["id", "type", "timestamp", "from", "from_", "to", "context", "text",
   "image", "video", "audio", "document", "location", "interactive",
   "template", "order", "sticker", "contacts", "reaction", "button",
   "referral"]

/-- `WebhookMessage.model_validate`. -/
def WebhookMessage.model_validate (input : PyVal) :
    Except PyExc WebhookMessage := do
  let xs ← vStrDict input
  let i ← vReqField xs ["id"]
  let ty ← vReqField xs ["type"]
  let ts ← vReqField xs ["timestamp"]
  let f ← vOptField xs ["from", "from_"] vOptStr
  let t2 ← vOptField xs ["to"] vOptStr
  let ctx ← match fieldGet xs ["context"] with
    | none => pure none
    | some .vnone => pure none
    | some v => do
      let cxs ← vStrDict v
      let c ← WebhookMessageContext.model_validate cxs
      pure (some c)
  let text ← vOptField xs ["text"] vOptStrDict
  let image ← vOptField xs ["image"] vOptStrDict
  let video ← vOptField xs ["video"] vOptStrDict
  let audio ← vOptField xs ["audio"] vOptStrDict
  let document ← vOptField xs ["document"] vOptStrDict
  let location ← vOptField xs ["location"] vOptStrDict
  let interactive ← vOptField xs ["interactive"] vOptStrDict
  let template ← vOptField xs ["template"] vOptStrDict
  let order ← vOptField xs ["order"] vOptStrDict
  let sticker ← vOptField xs ["sticker"] vOptStrDict
  let contacts ← vOptField xs ["contacts"] vOptDictList
  let reaction ← vOptField xs ["reaction"] vOptStrDict
  let button ← vOptField xs ["button"] vOptStrDict
  let referral ← vOptField xs ["referral"] vOptStrDict
  let extra := xs.filter (fun kv => !(webhookMessageFieldNames.contains kv.1))
  pure ⟨i, ty, ts, f, t2, ctx, text, image, video, audio, document,
    location, interactive, template, order, sticker, contacts, reaction,
    button, referral, extra⟩

/-- The input names consumed by `MessageStatusUpdate`'s declared fields. -/
def statusFieldNames : List String :=
  ["id", "status", "timestamp", "recipientId", "recipient_id",
   "conversation", "pricing", "errors"]

/-- `MessageStatusUpdate.model_validate`. -/
def MessageStatusUpdate.model_validate (input : PyVal) :
    Except PyExc MessageStatusUpdate := do
  let xs ← vStrDict input
  let i ← vReqField xs ["id"]
  let st ← vReqField xs ["status"]
  let ts ← vReqField xs ["timestamp"]
  let r ← vOptField xs ["recipientId", "recipient_id"] vOptStr
  let conv ← vOptField xs ["conversation"] vOptStrDict
  let pr ← vOptField xs ["pricing"] vOptStrDict
  let er ← vOptField xs ["errors"] vOptDictList
  let extra := xs.filter (fun kv => !(statusFieldNames.contains kv.1))
  pure ⟨i, st, ts, r, conv, pr, er, extra⟩

/-! ## `webhooks/normalize.py` -/

/-- Python iteration (`for x in v`): lists yield elements, strings yield
one-character strings, dicts yield keys; other values raise `TypeError`. -/
def pyIter : PyVal → Except PyExc (List PyVal)
  | .vlist xs => .ok xs
  | .vstr s => .ok (s.data.map (fun c => .vstr (String.mk [c])))
  | .vdict xs => .ok (xs.map (fun kv => kv.1))
  | _ => .error .typeError

/-- `raw.setdefault(field, []).append(v)`: an unhashable field raises
`TypeError`; otherwise the value is appended to the field's bucket, the
bucket being created at the end on first use. -/
def rawAppend (raw : List (PyVal × List PyVal)) (field : PyVal) (v : PyVal) :
    Except PyExc (List (PyVal × List PyVal)) :=
  if pyHashable field then
    .ok (if (raw.find? (fun kv => pyKeyEq kv.1 field)).isSome then
      raw.map (fun kv => if pyKeyEq kv.1 field then (kv.1, kv.2 ++ [v]) else kv)
    else raw ++ [(field, [v])])
  else .error .typeError

/-- Substring scan (`pat in s` for strings). -/
def strContainsSub (pat : List Char) : List Char → Bool
  | [] => pat.isEmpty
  | c :: rest => pat.isPrefixOf (c :: rest) || strContainsSub pat rest

/-- `value == "literal"`-style membership used by the `"from"` rename:
`"from" in normalized` is key membership on a dict, element equality on a
list, substring on a string, and `TypeError` otherwise. -/
def pyContainsStr (container : PyVal) (item : String) : Except PyExc Bool :=
  match container with
  | .vdict xs => .ok (dictHasKey xs (.vstr item))
  | .vlist xs => .ok (xs.any (fun v => pyEqStr v item))
  | .vstr s => .ok (strContainsSub item.data s.data)
  | _ => .error .typeError

/-- `d.pop(key, None)`: the removed value (or `None`) and the remaining
entries (first matching key removed). -/
def dictPop (xs : List (PyVal × PyVal)) (k : String) :
    PyVal × List (PyVal × PyVal) :=
  match xs.find? (fun kv => pyKeyEq kv.1 (.vstr k)) with
  | some kv => (kv.2, xs.eraseP (fun kv2 => pyKeyEq kv2.1 (.vstr k)))
  | none => (.vnone, xs)

/-- `d.setdefault(key, v)`: insert at the end only when the key is absent. -/
def dictSetdefault (xs : List (PyVal × PyVal)) (k : String) (v : PyVal) :
    List (PyVal × PyVal) :=
  if dictHasKey xs (.vstr k) then xs else xs ++ [(.vstr k, v)]

/-- The `"from"` → `"from_"` rename applied to one normalized message
before validation (`normalize.py` lines 59-60): when `"from"` is
contained in the value, `normalized.setdefault("from_",
normalized.pop("from", None))` runs — which requires the value to be a
mapping (`AttributeError` otherwise, e.g. on a string containing
`"from"`). -/
def renameFrom (normalized : PyVal) : Except PyExc PyVal := do
  let b ← pyContainsStr normalized "from"
  if b then
    match normalized with
    | .vdict xs =>
      let p := dictPop xs "from"
      pure (.vdict (dictSetdefault p.2 "from_" p.1))
    | _ => .error .attributeError
  else
    pure normalized

/-- The normalizer's accumulator (its local variables). -/
structure NormAcc where
  messages : List WebhookMessage
  statuses : List MessageStatusUpdate
  contacts : List PyVal
  raw : List (PyVal × List PyVal)
  phone_number_id : PyVal
  display_phone_number : PyVal

/-- Map a fallible step over a list, in order. -/
def listMapExc {α β : Type} (f : α → Except PyExc β) :
    List α → Except PyExc (List β)
  | [] => pure []
  | x :: xs => do
    let y ← f x
    let ys ← listMapExc f xs
    pure (y :: ys)

/-- One message item: snake-convert, rename `"from"`, validate. -/
def normalizeMessageItem (m : PyVal) : Except PyExc WebhookMessage := do
  let n ← to_snake_deep m
  let n2 ← renameFrom n
  WebhookMessage.model_validate n2

/-- One status item: snake-convert, validate. -/
def normalizeStatusItem (s : PyVal) : Except PyExc MessageStatusUpdate := do
  let n ← to_snake_deep s
  MessageStatusUpdate.model_validate n

/-- One `change` block of `normalize_webhook`: a non-`"messages"` field is
snake-converted into its `raw` bucket; a `"messages"` change takes the
metadata pair when the accumulated `phone_number_id` is falsy, then
appends the converted contacts, the renamed-and-validated messages and
the validated statuses, in order. -/
def processChange (acc : NormAcc) (change : PyVal) : Except PyExc NormAcc := do
  let cxs ← asDict change
  let value := dictGet cxs (.vstr "value") (.vdict [])
  let field := dictGet cxs (.vstr "field") (.vstr "")
  if !(pyEqStr field "messages") then do
    let sv ← to_snake_deep value
    let raw2 ← rawAppend acc.raw field sv
    pure ⟨acc.messages, acc.statuses, acc.contacts, raw2,
      acc.phone_number_id, acc.display_phone_number⟩
  else do
    let vxs ← asDict value
    let metadata := dictGet vxs (.vstr "metadata") (.vdict [])
    let meta2 ←
      if !(pyTruthy acc.phone_number_id) then do
        let mxs ← asDict metadata
        pure (dictGet mxs (.vstr "phone_number_id") .vnone,
          dictGet mxs (.vstr "display_phone_number") .vnone)
      else
        pure (acc.phone_number_id, acc.display_phone_number)
    let cs ← pyIter (dictGet vxs (.vstr "contacts") (.vlist []))
    let newContacts ← listMapExc to_snake_deep cs
    let ms ← pyIter (dictGet vxs (.vstr "messages") (.vlist []))
    let newMessages ← listMapExc normalizeMessageItem ms
    let sts ← pyIter (dictGet vxs (.vstr "statuses") (.vlist []))
    let newStatuses ← listMapExc normalizeStatusItem sts
    pure ⟨acc.messages ++ newMessages, acc.statuses ++ newStatuses,
      acc.contacts ++ newContacts, acc.raw, meta2.1, meta2.2⟩

/-- Fold `processChange` over the changes of one entry. -/
def processChanges (acc : NormAcc) : List PyVal → Except PyExc NormAcc
  | [] => pure acc
  | c :: cs => do
    let acc2 ← processChange acc c
    processChanges acc2 cs

/-- One `entry` block: iterate its `changes`. -/
def processEntry (acc : NormAcc) (entry : PyVal) : Except PyExc NormAcc := do
  let exs ← asDict entry
  let cs ← pyIter (dictGet exs (.vstr "changes") (.vlist []))
  processChanges acc cs

/-- Fold `processEntry` over the entries. -/
def processEntries (acc : NormAcc) : List PyVal → Except PyExc NormAcc
  | [] => pure acc
  | e :: es => do
    let acc2 ← processEntry acc e
    processEntries acc2 es

/-- A `str | None` pydantic check that keeps the runtime value. -/
def vCheckOptStr (v : PyVal) : Except PyExc PyVal :=
  match v with
  | .vnone => .ok v
  | .vstr _ => .ok v
  | _ => .error .validationError

/-- One `raw` bucket of the final validation: a string key mapping to a
list of string-keyed mappings. -/
def rawBucketCheck (kv : PyVal × List PyVal) : Except PyExc Unit := do
  let _ ← vReqStr kv.1
  let _ ← listMapExc vStrDict kv.2
  pure ()

/-- The final `NormalizedWebhook(...)` construction is itself a pydantic
validation: `object`/`phone_number_id`/`display_phone_number` must be
`str | None`, every aggregated contact and every `raw` bucket item must
be a string-keyed mapping, and every `raw` key must be a string. -/
def buildNormalized (obj : PyVal) (acc : NormAcc) :
    Except PyExc NormalizedWebhook := do
  let o ← vCheckOptStr obj
  let p ← vCheckOptStr acc.phone_number_id
  let d ← vCheckOptStr acc.display_phone_number
  let _ ← listMapExc vStrDict acc.contacts
  let _ ← listMapExc rawBucketCheck acc.raw
  pure ⟨o, p, d, acc.contacts, acc.messages, acc.statuses, acc.raw⟩

/-- `normalize_webhook(payload)` from `webhooks/normalize.py`: a non-dict
payload yields the all-default result; otherwise the entries' changes are
folded and the result validated. -/
def normalize_webhook (payload : PyVal) : Except PyExc NormalizedWebhook :=
  match payload with
  | .vdict pxs => do
    let obj := dictGet pxs (.vstr "object") .vnone
    let es ← pyIter (dictGet pxs (.vstr "entry") (.vlist []))
    let acc ← processEntries ⟨[], [], [], [], .vnone, .vnone⟩ es
    buildNormalized obj acc
  | _ => .ok ⟨.vnone, .vnone, .vnone, [], [], [], []⟩

example : normalize_webhook (.vstr "nope")
    = .ok ⟨.vnone, .vnone, .vnone, [], [], [], []⟩ := rfl

example :
    (normalize_webhook (.vdict
      [(.vstr "object", .vstr "whatsapp_business_account"),
       (.vstr "entry", .vlist [.vdict [(.vstr "id", .vstr "entry1"),
         (.vstr "changes", .vlist
           [.vdict [(.vstr "value", .vdict
              [(.vstr "messaging_product", .vstr "whatsapp"),
               (.vstr "metadata", .vdict
                 [(.vstr "phone_number_id", .vstr "123"),
                  (.vstr "display_phone_number", .vstr "+1")]),
               (.vstr "messages", .vlist [.vdict
                 [(.vstr "from", .vstr "1"), (.vstr "id", .vstr "m1"),
                  (.vstr "timestamp", .vstr "1"),
                  (.vstr "type", .vstr "text")]])]),
             (.vstr "field", .vstr "messages")],
            .vdict [(.vstr "value", .vdict [(.vstr "alert_type", .vstr "policy")]),
              (.vstr "field", .vstr "account_alerts")]])]])])).map
      (fun wh => (wh.phone_number_id, wh.messages.map (fun m => (m.id, m.from_)),
        wh.raw.map (fun kv => kv.1)))
    = .ok (.vstr "123", [("m1", some "1")], [.vstr "account_alerts"]) := rfl

/-- C4 counterexample: when the first `"messages"` change has no (falsy)
`phone_number_id`, a subsequent `"messages"` change *does* overwrite the
metadata — the guard is `if not phone_number_id`, a truthiness test, not
a first-change latch. -/
theorem claim_C4_counterexample :
    (normalize_webhook (.vdict
      [(.vstr "object", .vstr "wba"),
       (.vstr "entry", .vlist [.vdict [(.vstr "changes", .vlist
         [.vdict [(.vstr "value", .vdict [(.vstr "metadata", .vdict [])]),
            (.vstr "field", .vstr "messages")],
          .vdict [(.vstr "value", .vdict [(.vstr "metadata", .vdict
              [(.vstr "phone_number_id", .vstr "999"),
               (.vstr "display_phone_number", .vstr "+9")])]),
            (.vstr "field", .vstr "messages")]])]])])).map
      (fun wh => (wh.phone_number_id, wh.display_phone_number))
    = .ok (.vstr "999", .vstr "+9")
    ∧ PyVal.vstr "999" ≠ PyVal.vnone := by
  exact ⟨rfl, by simp⟩

/-- Whether a change block carries `field == "messages"`. -/
def isMsgsChange (change : PyVal) : Bool :=
  match change with
  | .vdict cxs => pyEqStr (dictGet cxs (.vstr "field") (.vstr "")) "messages"
  | _ => false

/-- A non-`"messages"` change never touches the metadata fields. -/
theorem processChange_not_messages (acc acc2 : NormAcc) (change : PyVal)
    (hm : isMsgsChange change = false)
    (h : processChange acc change = .ok acc2) :
    acc2.phone_number_id = acc.phone_number_id
    ∧ acc2.display_phone_number = acc.display_phone_number := by
  cases change with
  | vdict cxs =>
    simp only [isMsgsChange] at hm
    simp only [processChange, asDict, Bind.bind, Except.bind, hm,
      Bool.not_false, if_true] at h
    cases hsv : to_snake_deep (dictGet cxs (.vstr "value") (.vdict [])) with
    | error e => simp [hsv] at h
    | ok sv =>
      cases hra : rawAppend acc.raw (dictGet cxs (.vstr "field") (.vstr "")) sv with
      | error e => simp [hsv, hra] at h
      | ok raw2 =>
        simp [hsv, hra, pure, Except.pure] at h
        rw [← h]
        exact ⟨rfl, rfl⟩
  | vnone => simp [processChange, asDict, Bind.bind, Except.bind] at h
  | vbool b => simp [processChange, asDict, Bind.bind, Except.bind] at h
  | vint n => simp [processChange, asDict, Bind.bind, Except.bind] at h
  | vfloat q => simp [processChange, asDict, Bind.bind, Except.bind] at h
  | vstr s => simp [processChange, asDict, Bind.bind, Except.bind] at h
  | vlist xs => simp [processChange, asDict, Bind.bind, Except.bind] at h

/-- Once the accumulated `phone_number_id` is truthy, no later change
block modifies the metadata pair. -/
theorem processChange_truthy (acc acc2 : NormAcc) (change : PyVal)
    (hp : pyTruthy acc.phone_number_id = true)
    (h : processChange acc change = .ok acc2) :
    acc2.phone_number_id = acc.phone_number_id
    ∧ acc2.display_phone_number = acc.display_phone_number := by
  by_cases hm : isMsgsChange change = true
  · cases change with
    | vdict cxs =>
      simp only [isMsgsChange] at hm
      simp only [processChange, asDict, Bind.bind, Except.bind, hm,
        Bool.not_true, if_false, hp] at h
      cases hv : dictGet cxs (.vstr "value") (.vdict []) with
      | vdict vxs =>
        simp only [hv] at h
        cases hcs : pyIter (dictGet vxs (.vstr "contacts") (.vlist [])) with
        | error e => simp [hcs, pure, Except.pure] at h
        | ok cs =>
          cases hcc : listMapExc to_snake_deep cs with
          | error e => simp [hcs, hcc, pure, Except.pure] at h
          | ok newContacts =>
            cases hms : pyIter (dictGet vxs (.vstr "messages") (.vlist [])) with
            | error e => simp [hcs, hcc, hms, pure, Except.pure] at h
            | ok ms =>
              cases hmm : listMapExc normalizeMessageItem ms with
              | error e => simp [hcs, hcc, hms, hmm, pure, Except.pure] at h
              | ok newMessages =>
                cases hss : pyIter (dictGet vxs (.vstr "statuses") (.vlist [])) with
                | error e => simp [hcs, hcc, hms, hmm, hss, pure, Except.pure] at h
                | ok sts =>
                  cases hsm : listMapExc normalizeStatusItem sts with
                  | error e => simp [hcs, hcc, hms, hmm, hss, hsm, pure, Except.pure] at h
                  | ok newStatuses =>
                    simp [hcs, hcc, hms, hmm, hss, hsm, pure, Except.pure] at h
                    rw [← h]
                    exact ⟨rfl, rfl⟩
      | vnone => simp [hv] at h
      | vbool b => simp [hv] at h
      | vint n => simp [hv] at h
      | vfloat q => simp [hv] at h
      | vstr s => simp [hv] at h
      | vlist xs => simp [hv] at h
    | vnone => simp [isMsgsChange] at hm
    | vbool b => simp [isMsgsChange] at hm
    | vint n => simp [isMsgsChange] at hm
    | vfloat q => simp [isMsgsChange] at hm
    | vstr s => simp [isMsgsChange] at hm
    | vlist xs => simp [isMsgsChange] at hm
  · exact processChange_not_messages acc acc2 change (by simpa using hm) h

/-- A `"messages"` change hitting a falsy accumulated `phone_number_id`
installs both metadata values from its own `metadata` map. -/
theorem processChange_first_messages (acc acc2 : NormAcc)
    (cxs vxs mxs : List (PyVal × PyVal))
    (hm : pyEqStr (dictGet cxs (.vstr "field") (.vstr "")) "messages" = true)
    (hv : dictGet cxs (.vstr "value") (.vdict []) = .vdict vxs)
    (hmd : dictGet vxs (.vstr "metadata") (.vdict []) = .vdict mxs)
    (hp : pyTruthy acc.phone_number_id = false)
    (h : processChange acc (.vdict cxs) = .ok acc2) :
    acc2.phone_number_id = dictGet mxs (.vstr "phone_number_id") .vnone
    ∧ acc2.display_phone_number
        = dictGet mxs (.vstr "display_phone_number") .vnone := by
  simp only [processChange, asDict, Bind.bind, Except.bind, hm,
    Bool.not_true, if_false, hp] at h
  simp only [hv, hmd] at h
  cases hcs : pyIter (dictGet vxs (.vstr "contacts") (.vlist [])) with
  | error e => simp [hcs, pure, Except.pure] at h
  | ok cs =>
    cases hcc : listMapExc to_snake_deep cs with
    | error e => simp [hcs, hcc, pure, Except.pure] at h
    | ok newContacts =>
      cases hms : pyIter (dictGet vxs (.vstr "messages") (.vlist [])) with
      | error e => simp [hcs, hcc, hms, pure, Except.pure] at h
      | ok ms =>
        cases hmm : listMapExc normalizeMessageItem ms with
        | error e => simp [hcs, hcc, hms, hmm, pure, Except.pure] at h
        | ok newMessages =>
          cases hss : pyIter (dictGet vxs (.vstr "statuses") (.vlist [])) with
          | error e => simp [hcs, hcc, hms, hmm, hss, pure, Except.pure] at h
          | ok sts =>
            cases hsm : listMapExc normalizeStatusItem sts with
            | error e =>
              simp [hcs, hcc, hms, hmm, hss, hsm, pure, Except.pure] at h
            | ok newStatuses =>
              simp [hcs, hcc, hms, hmm, hss, hsm, pure, Except.pure] at h
              rw [← h]
              exact ⟨rfl, rfl⟩

/-- Truthiness preservation lifted over a list of changes. -/
theorem processChanges_truthy : ∀ (cs : List PyVal) (acc acc2 : NormAcc),
    pyTruthy acc.phone_number_id = true →
    processChanges acc cs = .ok acc2 →
    acc2.phone_number_id = acc.phone_number_id
    ∧ acc2.display_phone_number = acc.display_phone_number
  | [], acc, acc2, _, h => by
    simp [processChanges, pure, Except.pure] at h
    rw [← h]
    exact ⟨rfl, rfl⟩
  | c :: cs, acc, acc2, hp, h => by
    rw [processChanges] at h
    cases hc : processChange acc c with
    | error e => simp [hc, Bind.bind, Except.bind] at h
    | ok acc1 =>
      simp only [hc, Bind.bind, Except.bind] at h
      have h1 := processChange_truthy acc acc1 c hp hc
      have h2 := processChanges_truthy cs acc1 acc2 (by rw [h1.1]; exact hp) h
      exact ⟨h2.1.trans h1.1, h2.2.trans h1.2⟩

/-- Metadata preservation over a list of non-`"messages"` changes. -/
theorem processChanges_not_messages : ∀ (cs : List PyVal) (acc acc2 : NormAcc),
    cs.all (fun c => !isMsgsChange c) = true →
    processChanges acc cs = .ok acc2 →
    acc2.phone_number_id = acc.phone_number_id
    ∧ acc2.display_phone_number = acc.display_phone_number
  | [], acc, acc2, _, h => by
    simp [processChanges, pure, Except.pure] at h
    rw [← h]
    exact ⟨rfl, rfl⟩
  | c :: cs, acc, acc2, hall, h => by
    rw [List.all_cons, Bool.and_eq_true_iff] at hall
    rw [processChanges] at h
    cases hc : processChange acc c with
    | error e => simp [hc, Bind.bind, Except.bind] at h
    | ok acc1 =>
      simp only [hc, Bind.bind, Except.bind] at h
      have h1 := processChange_not_messages acc acc1 c
        (by simpa using hall.1) hc
      have h2 := processChanges_not_messages cs acc1 acc2 hall.2 h
      exact ⟨h2.1.trans h1.1, h2.2.trans h1.2⟩

/-- Splitting a change list splits the fold. -/
theorem processChanges_append : ∀ (xs ys : List PyVal) (acc : NormAcc),
    processChanges acc (xs ++ ys)
      = (processChanges acc xs).bind (fun a => processChanges a ys)
  | [], ys, acc => by
    simp [processChanges, Except.bind, pure, Except.pure]
  | x :: xs, ys, acc => by
    rw [List.cons_append, processChanges, processChanges]
    cases hx : processChange acc x with
    | error e => simp [hx, Bind.bind, Except.bind]
    | ok acc1 =>
      simp [hx, Bind.bind, Except.bind, processChanges_append xs ys acc1]

/-- Truthiness preservation over the remaining entries. -/
theorem processEntries_truthy : ∀ (es : List PyVal) (acc acc2 : NormAcc),
    pyTruthy acc.phone_number_id = true →
    processEntries acc es = .ok acc2 →
    acc2.phone_number_id = acc.phone_number_id
    ∧ acc2.display_phone_number = acc.display_phone_number
  | [], acc, acc2, _, h => by
    simp [processEntries, pure, Except.pure] at h
    rw [← h]
    exact ⟨rfl, rfl⟩
  | e :: es, acc, acc2, hp, h => by
    rw [processEntries] at h
    cases he : processEntry acc e with
    | error e2 => simp [he, Bind.bind, Except.bind] at h
    | ok acc1 =>
      simp only [he, Bind.bind, Except.bind] at h
      have h1 : acc1.phone_number_id = acc.phone_number_id
          ∧ acc1.display_phone_number = acc.display_phone_number := by
        rw [processEntry] at he
        cases hd : asDict e with
        | error e3 => simp [hd, Bind.bind, Except.bind] at he
        | ok exs =>
          simp only [hd, Bind.bind, Except.bind] at he
          cases hi : pyIter (dictGet exs (.vstr "changes") (.vlist [])) with
          | error e3 => simp [hi] at he
          | ok cs =>
            simp only [hi] at he
            exact processChanges_truthy cs acc acc1 hp he
      have h2 := processEntries_truthy es acc1 acc2 (by rw [h1.1]; exact hp) h
      exact ⟨h2.1.trans h1.1, h2.2.trans h1.2⟩

/-- `vCheckOptStr` returns its input on success. -/
theorem vCheckOptStr_ok {v w : PyVal} (h : vCheckOptStr v = .ok w) : w = v := by
  cases v <;> simp [vCheckOptStr] at h <;> exact h.symm

/-- The final construction keeps the accumulated metadata values. -/
theorem buildNormalized_fields (obj : PyVal) (acc : NormAcc)
    (wh : NormalizedWebhook) (h : buildNormalized obj acc = .ok wh) :
    wh.phone_number_id = acc.phone_number_id
    ∧ wh.display_phone_number = acc.display_phone_number := by
  simp only [buildNormalized, Bind.bind, Except.bind] at h
  cases ho : vCheckOptStr obj with
  | error e => simp [ho] at h
  | ok o =>
    simp only [ho] at h
    cases hp : vCheckOptStr acc.phone_number_id with
    | error e => simp [hp] at h
    | ok p =>
      simp only [hp] at h
      cases hd : vCheckOptStr acc.display_phone_number with
      | error e => simp [hd] at h
      | ok d =>
        simp only [hd] at h
        cases hc : listMapExc vStrDict acc.contacts with
        | error e => simp [hc] at h
        | ok cl =>
          simp only [hc] at h
          cases hr : listMapExc rawBucketCheck acc.raw with
          | error e => simp [hr] at h
          | ok rl =>
            simp [hr, pure, Except.pure] at h
            rw [← h]
            exact ⟨vCheckOptStr_ok hp, vCheckOptStr_ok hd⟩

/-- A webhook payload with one entry holding the given changes. -/
def mkPayload (obj : PyVal) (changes : List PyVal) : PyVal :=
  .vdict [(.vstr "object", obj),
    (.vstr "entry", .vlist [.vdict [(.vstr "changes", .vlist changes)]])]

/-- C4 (amended): the metadata extraction is first-TRUTHY-wins, not
first-change-wins.  Once the accumulated `phone_number_id` is truthy no
later change (in the same or a later entry) overwrites the pair, and the
first `"messages"` change encountered while it is still falsy installs
both values from its metadata; hence for a payload whose first
`"messages"` change carries a truthy `phone_number_id`, `normalize`
returns exactly that change's metadata.  (When the first `"messages"`
change yields a falsy value, later changes do overwrite it — the
counterexample.) -/
theorem claim_C4 :
    (∀ (cs : List PyVal) (acc acc2 : NormAcc),
      pyTruthy acc.phone_number_id = true →
      processChanges acc cs = .ok acc2 →
      acc2.phone_number_id = acc.phone_number_id
      ∧ acc2.display_phone_number = acc.display_phone_number)
    ∧ (∀ (es : List PyVal) (acc acc2 : NormAcc),
      pyTruthy acc.phone_number_id = true →
      processEntries acc es = .ok acc2 →
      acc2.phone_number_id = acc.phone_number_id
      ∧ acc2.display_phone_number = acc.display_phone_number)
    ∧ (∀ (obj : PyVal) (pre : List PyVal) (cxs vxs mxs : List (PyVal × PyVal))
        (post : List PyVal) (wh : NormalizedWebhook),
      pre.all (fun c => !isMsgsChange c) = true →
      pyEqStr (dictGet cxs (.vstr "field") (.vstr "")) "messages" = true →
      dictGet cxs (.vstr "value") (.vdict []) = .vdict vxs →
      dictGet vxs (.vstr "metadata") (.vdict []) = .vdict mxs →
      pyTruthy (dictGet mxs (.vstr "phone_number_id") .vnone) = true →
      normalize_webhook (mkPayload obj (pre ++ .vdict cxs :: post)) = .ok wh →
      wh.phone_number_id = dictGet mxs (.vstr "phone_number_id") .vnone
      ∧ wh.display_phone_number
          = dictGet mxs (.vstr "display_phone_number") .vnone) := by
  refine ⟨processChanges_truthy, processEntries_truthy, ?_⟩
  intro obj pre cxs vxs mxs post wh hall hm hv hmd htr hok
  have hstep : normalize_webhook (mkPayload obj (pre ++ .vdict cxs :: post))
      = Except.bind
          (Except.bind
            (processChanges ⟨[], [], [], [], .vnone, .vnone⟩
              (pre ++ .vdict cxs :: post))
            (fun a => processEntries a []))
          (fun acc => buildNormalized obj acc) := rfl
  rw [hstep, processChanges_append] at hok
  cases hPre : processChanges ⟨[], [], [], [], .vnone, .vnone⟩ pre with
  | error e => simp [hPre, Except.bind] at hok
  | ok accPre =>
    simp only [hPre, Except.bind] at hok
    have hpre := processChanges_not_messages pre _ accPre hall hPre
    rw [processChanges] at hok
    cases hC : processChange accPre (.vdict cxs) with
    | error e => simp [hC, Bind.bind, Except.bind] at hok
    | ok acc1 =>
      simp only [hC, Bind.bind, Except.bind] at hok
      have hfalsy : pyTruthy accPre.phone_number_id = false := by
        rw [hpre.1]
        rfl
      have hfirst :=
        processChange_first_messages accPre acc1 cxs vxs mxs hm hv hmd hfalsy hC
      cases hPost : processChanges acc1 post with
      | error e => simp [hPost] at hok
      | ok acc2 =>
        simp only [hPost] at hok
        have htr1 : pyTruthy acc1.phone_number_id = true := by
          rw [hfirst.1]
          exact htr
        have hpost := processChanges_truthy post acc1 acc2 htr1 hPost
        simp only [processEntries, pure, Except.pure] at hok
        have hbuild := buildNormalized_fields obj acc2 wh hok
        constructor
        · rw [hbuild.1, hpost.1, hfirst.1]
        · rw [hbuild.2, hpost.2, hfirst.2]

/-- A `"messages"` change with concrete metadata, used by the witness. -/
def sampleMsgsChange : List (PyVal × PyVal) :=
  [(.vstr "value", .vdict [(.vstr "metadata", .vdict
      [(.vstr "phone_number_id", .vstr "123"),
       (.vstr "display_phone_number", .vstr "+1")])]),
   (.vstr "field", .vstr "messages")]

/-- Witness for C4 (amended): a truthy first `"messages"` change followed
by another `"messages"` change keeps its own metadata; the fold-level
conjuncts applied at a one-change list. -/
theorem claim_C4_witness :
    ((⟨[], [], [], [(.vstr "account_alerts", [.vdict []])], .vstr "p", .vstr "d"⟩ :
        NormAcc).phone_number_id = (⟨[], [], [], [], .vstr "p", .vstr "d"⟩ :
        NormAcc).phone_number_id
      ∧ (⟨[], [], [], [(.vstr "account_alerts", [.vdict []])], .vstr "p", .vstr "d"⟩ :
        NormAcc).display_phone_number = (⟨[], [], [], [], .vstr "p",
        .vstr "d"⟩ : NormAcc).display_phone_number)
    ∧ ((⟨[], [], [], [], .vstr "p", .vstr "d"⟩ : NormAcc).phone_number_id
        = (⟨[], [], [], [], .vstr "p", .vstr "d"⟩ : NormAcc).phone_number_id
      ∧ (⟨[], [], [], [], .vstr "p", .vstr "d"⟩ :
        NormAcc).display_phone_number = (⟨[], [], [], [], .vstr "p",
        .vstr "d"⟩ : NormAcc).display_phone_number)
    ∧ ((⟨.vstr "wba", .vstr "123", .vstr "+1", [], [], [], []⟩ :
          NormalizedWebhook).phone_number_id
        = dictGet [(.vstr "phone_number_id", .vstr "123"),
            (.vstr "display_phone_number", .vstr "+1")]
            (.vstr "phone_number_id") .vnone
      ∧ (⟨.vstr "wba", .vstr "123", .vstr "+1", [], [], [], []⟩ :
          NormalizedWebhook).display_phone_number
        = dictGet [(.vstr "phone_number_id", .vstr "123"),
            (.vstr "display_phone_number", .vstr "+1")]
            (.vstr "display_phone_number") .vnone) :=
  ⟨claim_C4.1
      [.vdict [(.vstr "field", .vstr "account_alerts"),
        (.vstr "value", .vdict [])]]
      ⟨[], [], [], [], .vstr "p", .vstr "d"⟩
      ⟨[], [], [], [(.vstr "account_alerts", [.vdict []])], .vstr "p", .vstr "d"⟩
      rfl rfl,
   claim_C4.2.1 [] ⟨[], [], [], [], .vstr "p", .vstr "d"⟩
     ⟨[], [], [], [], .vstr "p", .vstr "d"⟩ rfl rfl,
   claim_C4.2.2 (.vstr "wba") [] sampleMsgsChange
     [(.vstr "metadata", .vdict [(.vstr "phone_number_id", .vstr "123"),
        (.vstr "display_phone_number", .vstr "+1")])]
     [(.vstr "phone_number_id", .vstr "123"),
      (.vstr "display_phone_number", .vstr "+1")]
     [.vdict sampleMsgsChange]
     ⟨.vstr "wba", .vstr "123", .vstr "+1", [], [], [], []⟩
     rfl rfl rfl rfl rfl rfl⟩
